import Mathlib

/-!
Verification of the static-analysis core of the AI code-review repository.

The four backend adapters (`analyzer_cpp.py`, `analyzer_java.py`,
`analyzer_js.py`, `analyzer_py.py`) are shallowly embedded below.  Pure string
processing (heuristic pattern counting, output parsers) is translated
function-by-function from the Python source; subprocess interactions are
modelled by inductive "run outcome" types whose constructors correspond
one-to-one to the outcomes the Python code distinguishes (tool unavailable,
timeout, invocation error, decoded output payload).  Python floats are
modelled as `Rat`; every float computation relevant to a claim below is exact
in IEEE double precision as well (the values involved are small dyadic
combinations or the claims only need ordering/clamping facts), so nothing is
lost by this choice.  Python `None` returns are modelled by `Option`, raised
exceptions by `Except`.
-/

/-! ## Basic Python-style string helpers -/

/-- Python `\s` / `str.strip` whitespace class (space, tab, newline, CR, VT, FF). -/
def isPyWS (c : Char) : Bool :=
  c = ' ' || c = '\t' || c = '\n' || c = '\r' || c = '\x0b' || c = '\x0c'

/-- Python regex `\w` word-character class (ASCII letters, digits, underscore). -/
def isWordChar (c : Char) : Bool :=
  c.isAlpha || c.isDigit || c = '_'

/-- `line.strip()` on a character list. -/
def pyStripL (l : List Char) : List Char :=
  ((l.dropWhile isPyWS).reverse.dropWhile isPyWS).reverse

/-- `s.strip()`. -/
def pyStrip (s : String) : String :=
  String.mk (pyStripL s.data)

/-- `s.lower()` (character-wise ASCII lowercasing, list-based). -/
def pyLower (s : String) : String :=
  String.mk (s.data.map Char.toLower)

/-- `not s.strip()`: true iff the string is empty or whitespace-only. -/
def pyStripIsEmpty (s : String) : Bool :=
  s.data.all isPyWS

/-- `s.split('\n')` on character lists (Python keeps empty fields). -/
def splitNL : List Char → List (List Char)
  | [] => [[]]
  | c :: rest =>
    if c = '\n' then [] :: splitNL rest
    else
      match splitNL rest with
      | l :: ls => (c :: l) :: ls
      | [] => [[c]]

/-- Match a literal character sequence at the head (case-sensitive). -/
def dropLit : List Char → List Char → Option (List Char)
  | [], s => some s
  | _ :: _, [] => none
  | p :: ps, c :: s => if p = c then dropLit ps s else none

/-- Match a literal character sequence at the head, ASCII case-insensitively
(models `re.IGNORECASE`). -/
def dropLitCI : List Char → List Char → Option (List Char)
  | [], s => some s
  | _ :: _, [] => none
  | p :: ps, c :: s => if p.toLower = c.toLower then dropLitCI ps s else none

/-- `pat in line` (Python substring containment) for a nonempty pattern. -/
def containsSub (pat : List Char) : List Char → Bool
  | [] => pat.isEmpty
  | s@(_ :: rest) => (dropLit pat s).isSome || containsSub pat rest

/-- `line.startswith(pat)`. -/
def lStarts (pat : String) (l : List Char) : Bool :=
  (dropLit pat.data l).isSome

/-- `line.endswith(pat)`. -/
def lEnds (pat : String) (l : List Char) : Bool :=
  (dropLit pat.data.reverse l.reverse).isSome

/-- `line.find(c)`: index of the first occurrence. -/
def findIdx (c : Char) : List Char → Option Nat
  | [] => none
  | x :: rest =>
    if x = c then some 0
    else (findIdx c rest).map (· + 1)

/-- Index of the last occurrence of `c`. -/
def lastIdxOf (c : Char) (l : List Char) : Option Nat :=
  (findIdx c l.reverse).map (fun i => l.length - 1 - i)

/-- Numeric value of a digit run (`int(parts[k])` on a digit string). -/
def natOfDigits (l : List Char) : Nat :=
  l.foldl (fun n c => 10 * n + (c.toNat - '0'.toNat)) 0

/-- Match `\d+` at the head, greedily. -/
def digits1 (s : List Char) : Option (Nat × List Char) :=
  let ds := s.takeWhile Char.isDigit
  if ds.isEmpty then none else some (natOfDigits ds, s.dropWhile Char.isDigit)

/-! ## A small matcher for the fixed regular expressions of the heuristics

Each decision-point pattern used by the C++/Java complexity estimators is a
word-boundary flag followed by a sequence of simple tokens.  In every pattern
below a greedy `\s*`/`\s+`/`\w+` is followed by a character outside its class,
so greedy matching without backtracking coincides with Python's semantics. -/

inductive RTok
  /-- case-sensitive literal -/
  | lit (w : String)
  /-- case-insensitive literal (`re.IGNORECASE`) -/
  | litCI (w : String)
  /-- `\s*` -/
  | ws0
  /-- `\s+` -/
  | ws1
  /-- `\w+` -/
  | wch1
  /-- `[^x]*` for the given character -/
  | noneOf0 (c : Char)
deriving DecidableEq

/-- Match a token sequence at the head of `s`, returning the remainder. -/
def matchRest : List RTok → List Char → Option (List Char)
  | [], s => some s
  | .lit w :: ts, s =>
    match dropLit w.data s with
    | some s' => matchRest ts s'
    | none => none
  | .litCI w :: ts, s =>
    match dropLitCI w.data s with
    | some s' => matchRest ts s'
    | none => none
  | .ws0 :: ts, s => matchRest ts (s.dropWhile isPyWS)
  | .ws1 :: ts, s =>
    let s' := s.dropWhile isPyWS
    if s'.length = s.length then none else matchRest ts s'
  | .wch1 :: ts, s =>
    let s' := s.dropWhile isWordChar
    if s'.length = s.length then none else matchRest ts s'
  | .noneOf0 c :: ts, s => matchRest ts (s.dropWhile (· ≠ c))

/-- A pattern: optional leading `\b`, then tokens. -/
structure Pat where
  needsB : Bool
  toks : List RTok
deriving DecidableEq

/-- Character preceding the suffix `s'` of `s` (the last character a match
consumed), used for the word-boundary state after skipping a match. -/
def lastConsumed (s s' : List Char) (dflt : Char) : Char :=
  ((s.take (s.length - s'.length)).getLast?).getD dflt

/-- `len(re.findall(pat, code))`: scan left to right, counting
non-overlapping matches.  `prevW` records whether the previous character is a
word character (for `\b`); fuel bounds the scan and is instantiated with the
string length, which suffices since every step consumes at least one
character. -/
def countPatAux (p : Pat) : Nat → Bool → List Char → Nat
  | 0, _, _ => 0
  | _ + 1, _, [] => 0
  | fuel + 1, prevW, s@(c :: rest) =>
    let bOk := !p.needsB || (prevW != isWordChar c)
    match (if bOk then matchRest p.toks s else none) with
    | some s' =>
      if s'.length < s.length then
        1 + countPatAux p fuel (isWordChar (lastConsumed s s' c)) s'
      else 1 + countPatAux p fuel (isWordChar c) rest
    | none => countPatAux p fuel (isWordChar c) rest

/-- Count matches of `p` in `code`. -/
def countPattern (p : Pat) (code : String) : Nat :=
  countPatAux p (code.data.length + 1) false code.data

/-! ## `analyzer_cpp.py`: `CppAnalyzer._estimate_complexity_from_code` -/

/-- `\bif\s*\(` -/
def cppPatIf : Pat := ⟨true, [.litCI "if", .ws0, .lit "("]⟩
/-- `\belse\s+if\s*\(` -/
def cppPatElseIf : Pat := ⟨true, [.litCI "else", .ws1, .litCI "if", .ws0, .lit "("]⟩
/-- `\bwhile\s*\(` -/
def cppPatWhile : Pat := ⟨true, [.litCI "while", .ws0, .lit "("]⟩
/-- `\bfor\s*\(` -/
def cppPatFor : Pat := ⟨true, [.litCI "for", .ws0, .lit "("]⟩
/-- `\bdo\s*\x7b` -/
def cppPatDo : Pat := ⟨true, [.litCI "do", .ws0, .lit "\x7b"]⟩
/-- `\bswitch\s*\(` -/
def cppPatSwitch : Pat := ⟨true, [.litCI "switch", .ws0, .lit "("]⟩
/-- `\bcase\s+` -/
def cppPatCase : Pat := ⟨true, [.litCI "case", .ws1]⟩
/-- `\bcatch\s*\(` -/
def cppPatCatch : Pat := ⟨true, [.litCI "catch", .ws0, .lit "("]⟩
/-- `\b\?\s*` -/
def cppPatTernary : Pat := ⟨true, [.lit "?", .ws0]⟩
/-- `\|\|` -/
def cppPatOr : Pat := ⟨false, [.lit "||"]⟩
/-- `&&` -/
def cppPatAnd : Pat := ⟨false, [.lit "&&"]⟩

/-- The pattern list of `_estimate_complexity_from_code`, in source order. -/
def cppComplexityPatterns : List Pat :=
  [cppPatIf, cppPatElseIf, cppPatWhile, cppPatFor, cppPatDo, cppPatSwitch,
   cppPatCase, cppPatCatch, cppPatTernary, cppPatOr, cppPatAnd]

/-- `CppAnalyzer._estimate_complexity_from_code`: base complexity 1 plus one
per pattern match (all patterns counted with `re.IGNORECASE`). -/
def estimate_complexity_from_code (code : String) : Rat :=
  ((1 + (cppComplexityPatterns.map (fun p => countPattern p code)).sum : Nat) : Rat)

/-- `CppAnalyzer._estimate_maintainability_index`. -/
def estimate_maintainability_index (code : String) (complexity : Rat) : Rat :=
  let lines := ((splitNL code.data).map pyStripL).filter (fun l => !l.isEmpty)
  let total_lines := lines.length
  if total_lines = 0 then 100
  else
    let comment_lines := (lines.filter (fun l => lStarts "//" l || lStarts "/*" l)).length
    let comment_ratio : Rat := (comment_lines : Rat) / (total_lines : Rat)
    let long_lines := (lines.filter (fun l => l.length > 120)).length
    let long_line_ratio : Rat := (long_lines : Rat) / (total_lines : Rat)
    let maintainability : Rat := 100 - complexity * 2 - long_line_ratio * 20 + comment_ratio * 10
    max 0 (min 100 maintainability)

/-! ## `analyzer_cpp.py`: `CppAnalyzer._parse_clang_tidy_output` (text format)

The text parser applies
`^(.+?):(\d+):(\d+):\s*(warning|error|note):\s*(.+?)\s*\[([^\]]+)\]` to each
line via `re.match`.  The lazy groups are implemented by enumerating split
points in increasing order; the greedy `\s*` before a character outside the
whitespace class needs no backtracking.  Lines are split on newline before
matching, so `.` never meets a newline. -/

structure ClangGroups where
  file : String
  line : Nat
  col : Nat
  sev : String
  message : String
  rule : String
deriving DecidableEq

/-- `\s*\[([^\]]+)\]` at the head: skip whitespace, then a bracketed
nonempty check name.  Trailing characters are allowed (`re.match` needs no
full match). -/
def clangTryRule (s : List Char) : Option (List Char) :=
  match s.dropWhile isPyWS with
  | '[' :: s2 =>
    let rule := s2.takeWhile (· ≠ ']')
    if rule.isEmpty then none
    else
      match s2.dropWhile (· ≠ ']') with
      | ']' :: _ => some rule
      | _ => none
  | _ => none

/-- `(.+?)\s*\[([^\]]+)\]`: lazily grow the message (at least one character)
until the bracketed rule matches. -/
def clangMsgRule (acc : List Char) : List Char → Option (List Char × List Char)
  | [] => none
  | c :: rest =>
    let acc' := c :: acc
    match clangTryRule rest with
    | some rule => some (acc'.reverse, rule)
    | none => clangMsgRule acc' rest

/-- `(\d+):(\d+):\s*(warning|error|note):\s*(.+?)\s*\[([^\]]+)\]`
(everything after the first group's separating colon). -/
def clangAfterFile (s : List Char) : Option ClangGroups :=
  match digits1 s with
  | none => none
  | some (ln, s1) =>
    match s1 with
    | ':' :: s2 =>
      match digits1 s2 with
      | none => none
      | some (col, s3) =>
        match s3 with
        | ':' :: s4 =>
          let s5 := s4.dropWhile isPyWS
          let sevAndRest : Option (String × List Char) :=
            match dropLit "warning".data s5 with
            | some r => some ("warning", r)
            | none =>
              match dropLit "error".data s5 with
              | some r => some ("error", r)
              | none =>
                match dropLit "note".data s5 with
                | some r => some ("note", r)
                | none => none
          match sevAndRest with
          | none => none
          | some (sev, s6) =>
            match s6 with
            | ':' :: s7 =>
              match clangMsgRule [] (s7.dropWhile isPyWS) with
              | none => none
              | some (msg, rule) =>
                some ⟨"", ln, col, sev, String.mk msg, String.mk rule⟩
            | _ => none
        | _ => none
    | _ => none

/-- `(.+?):` lazily: shortest nonempty prefix ending before a colon whose
suffix matches the rest of the pattern. -/
def clangSplitFile (acc : List Char) : List Char → Option ClangGroups
  | [] => none
  | c :: rest =>
    if c = ':' && !acc.isEmpty then
      match clangAfterFile rest with
      | some g => some { g with file := String.mk acc.reverse }
      | none => clangSplitFile (c :: acc) rest
    else clangSplitFile (c :: acc) rest

/-- `re.match` of the clang-tidy line pattern against one output line. -/
def parseClangLine (line : List Char) : Option ClangGroups :=
  clangSplitFile [] line

/-- Issue dictionary shape built by `CppAnalyzer._parse_clang_tidy_output`. -/
structure CppIssue where
  line : Nat
  column : Nat
  message : String
  severity : String
  symbol : String
deriving DecidableEq

/-- The issue dictionary built from one matched line
(`severity.lower()` and `message.strip()` applied as in the source). -/
def clangIssueOfGroups (g : ClangGroups) : CppIssue :=
  ⟨g.line, g.col, pyStrip g.message, (pyLower g.sev), g.rule⟩

/-- The text-format loop of `_parse_clang_tidy_output`: matched lines with
severity `error` go to errors, `warning` to warnings; any other matched
severity (clang-tidy `note`) is appended to neither list. -/
def clangClassify : List (List Char) → List CppIssue × List CppIssue
  | [] => ([], [])
  | l :: ls =>
    let (es, ws) := clangClassify ls
    match parseClangLine l with
    | none => (es, ws)
    | some g =>
      let issue := clangIssueOfGroups g
      if issue.severity = "error" then (issue :: es, ws)
      else if issue.severity = "warning" then (es, issue :: ws)
      else (es, ws)

/-- `CppAnalyzer._parse_clang_tidy_output(output, 'text')`. -/
def parse_clang_tidy_output_text (output : String) : List CppIssue × List CppIssue :=
  clangClassify (splitNL output.data)

/-- All issues whose lines match the clang-tidy output pattern, regardless of
severity (used to state what the classification keeps and drops). -/
def clangMatchedIssues (output : String) : List CppIssue :=
  (splitNL output.data).filterMap (fun l => (parseClangLine l).map clangIssueOfGroups)

/-! ## `analyzer_cpp.py`: YAML branch and `_run_clang_tidy_analysis`

`yaml.safe_load` is external; its result is modelled at the data level: `none`
stands for a `YAMLError` or an output without a `Diagnostics` dictionary,
`some diags` for the extracted diagnostic list (one entry per diagnostic, with
the `.get` defaults of the source already applied). -/

structure YamlDiag where
  fileOffset : Nat
  message : String
  level : String
  name : String
deriving DecidableEq

/-- Classification of the YAML branch: a diagnostic whose `Level` contains
`error` (case-insensitively) is an error, anything else a warning. -/
def clangYamlClassify : List YamlDiag → List CppIssue × List CppIssue
  | [] => ([], [])
  | d :: ds =>
    let (es, ws) := clangYamlClassify ds
    let issue : CppIssue :=
      ⟨d.fileOffset, 0, d.message,
        if containsSub "error".data (pyLower d.level).data then "error" else "warning",
        d.name⟩
    if issue.severity = "error" then (issue :: es, ws) else (es, issue :: ws)

/-- `CppAnalyzer._parse_clang_tidy_output(output, 'yaml')`: the YAML branch,
followed by the text-format fallback when it produced no issues. -/
def parse_clang_tidy_output_yaml (yamlData : Option (List YamlDiag)) (raw : String) :
    List CppIssue × List CppIssue :=
  let (es, ws) :=
    match yamlData with
    | some diags => clangYamlClassify diags
    | none => ([], [])
  if es.isEmpty && ws.isEmpty then parse_clang_tidy_output_text raw else (es, ws)

/-- Outcome of the clang-tidy subprocess in `_run_clang_tidy_analysis`:
timeout, invocation failure, or combined stdout+stderr text together with the
optional second, YAML-format invocation (attempted only when the text parse
found nothing; `none` models its own failure or empty stdout). -/
inductive TidyRun
  | timeout
  | subprocessError (msg : String)
  | out (text : String) (yamlRetry : Option (Option (List YamlDiag) × String))
deriving DecidableEq

/-- The synthetic warning appended on `subprocess.TimeoutExpired`. -/
def cppTimeoutWarning : CppIssue :=
  ⟨1, 1, "Analysis timeout - code may be too complex", "warning", "timeout"⟩

/-- The synthetic error appended on `subprocess.SubprocessError`. -/
def cppAnalysisError (msg : String) : CppIssue :=
  ⟨1, 1, "Analysis failed: " ++ msg, "error", "analysis-error"⟩

/-- `CppAnalyzer._run_clang_tidy_analysis`: with clang-tidy unavailable the
fallback is two empty lists; otherwise the text output is parsed, the YAML
retry is consulted when the text parse was empty, and timeout/invocation
failures become single synthetic issues. -/
def run_clang_tidy_analysis (clangTidyAvailable : Bool) (run : TidyRun) :
    List CppIssue × List CppIssue :=
  if !clangTidyAvailable then ([], [])
  else
    match run with
    | .timeout => ([], [cppTimeoutWarning])
    | .subprocessError m => ([cppAnalysisError m], [])
    | .out text yamlRetry =>
      let (es, ws) :=
        if text ≠ "" then parse_clang_tidy_output_text text else ([], [])
      if es.isEmpty && ws.isEmpty then
        match yamlRetry with
        | some (yd, raw) => parse_clang_tidy_output_yaml yd raw
        | none => (es, ws)
      else (es, ws)

/-- `CppAnalysisResult` dataclass. -/
structure CppAnalysisResult where
  language : String
  total_issues : Nat
  errors : List CppIssue
  warnings : List CppIssue
  complexity : Rat
  maintainability_index : Rat
  clang_tidy_available : Bool
deriving DecidableEq

/-- `CppAnalyzer.analyze` (the `analysis_details` dictionary, pure display
metadata never read back, is not modelled).  `clangTidyAvailable` is the
availability probe's result; `run` the clang-tidy subprocess outcome. -/
def CppAnalyzer.analyze (clangTidyAvailable : Bool) (code : String)
    (language : String) (run : TidyRun) : CppAnalysisResult :=
  if pyStripIsEmpty code then
    ⟨language, 0, [], [], 1, 100, clangTidyAvailable⟩
  else
    let (errors, warnings) := run_clang_tidy_analysis clangTidyAvailable run
    let complexity := estimate_complexity_from_code code
    let maintainability := estimate_maintainability_index code complexity
    ⟨language, errors.length + warnings.length, errors, warnings,
      complexity, maintainability, clangTidyAvailable⟩

/-- Module-level `analyze_cpp_code`. -/
def analyze_cpp_code (clangTidyAvailable : Bool) (code : String)
    (language : String) (run : TidyRun) : CppAnalysisResult :=
  CppAnalyzer.analyze clangTidyAvailable code language run

/-! ## `analyzer_java.py`: `JavaAnalyzer._calculate_complexity_metrics` -/

/-- `\bif\s*\(` (Java patterns are case-sensitive: no `re.IGNORECASE`). -/
def javaPatIf : Pat := ⟨true, [.lit "if", .ws0, .lit "("]⟩
/-- `\bwhile\s*\(` -/
def javaPatWhile : Pat := ⟨true, [.lit "while", .ws0, .lit "("]⟩
/-- `\bfor\s*\(` -/
def javaPatFor : Pat := ⟨true, [.lit "for", .ws0, .lit "("]⟩
/-- `\bswitch\s*\(` -/
def javaPatSwitch : Pat := ⟨true, [.lit "switch", .ws0, .lit "("]⟩
/-- `\bcatch\s*\(` -/
def javaPatCatch : Pat := ⟨true, [.lit "catch", .ws0, .lit "("]⟩
/-- `\bclass\s+\w+` -/
def javaPatClass : Pat := ⟨true, [.lit "class", .ws1, .wch1]⟩

/-- The greedy `.*` of `\?.*:` (no DOTALL) extends to the end of the line;
backtracking to satisfy the final `:` makes the match end at the last colon
before the next newline.  Returns the remainder after that colon. -/
def ternaryTail (rest : List Char) : Option (List Char) :=
  let seg := rest.takeWhile (· ≠ '\n')
  let tail := rest.drop seg.length
  match lastIdxOf ':' seg with
  | some i => some (seg.drop (i + 1) ++ tail)
  | none => none

/-- `len(re.findall(r'\?.*:', code))`: non-overlapping scan. -/
def countTernaryAux : Nat → List Char → Nat
  | 0, _ => 0
  | _ + 1, [] => 0
  | fuel + 1, c :: rest =>
    if c = '?' then
      match ternaryTail rest with
      | some s' => 1 + countTernaryAux fuel s'
      | none => countTernaryAux fuel rest
    else countTernaryAux fuel rest

def countTernary (code : String) : Nat :=
  countTernaryAux (code.data.length + 1) code.data

/-- `\b\w+\s*\([^)]*\)\s*\x7b`, the tail of the method pattern after the
lazy gap.  The leading `\b` is checked by the caller via the previous
character. -/
def javaMethodEnd (s : List Char) : Option (List Char) :=
  matchRest [.wch1, .ws0, .lit "(", .noneOf0 ')', .lit ")", .ws0, .lit "\x7b"] s

/-- The lazy `.*?` between the access-modifier keyword and the method tail:
grow the gap one (non-newline) character at a time, trying the tail (with its
word boundary against the previous character) at each point. -/
def javaMethodScan : Nat → Char → List Char → Option (List Char)
  | 0, _, _ => none
  | fuel + 1, prev, s =>
    match (if !isWordChar prev then javaMethodEnd s else none) with
    | some s' => some s'
    | none =>
      match s with
      | [] => none
      | c :: rest => if c = '\n' then none else javaMethodScan fuel c rest

/-- `len(re.findall(r'\b(public|private|protected|static).*?\b\w+\s*\([^)]*\)\s*\x7b', code))`.
The four alternatives are mutually prefix-free, so at most one applies at a
given position. -/
def countJavaMethodsAux : Nat → Bool → List Char → Nat
  | 0, _, _ => 0
  | _ + 1, _, [] => 0
  | fuel + 1, prevW, s@(c :: rest) =>
    let attempt : Option (List Char) :=
      if prevW != isWordChar c then
        match dropLit "public".data s with
        | some r => javaMethodScan (r.length + 1) 'c' r
        | none =>
          match dropLit "private".data s with
          | some r => javaMethodScan (r.length + 1) 'e' r
          | none =>
            match dropLit "protected".data s with
            | some r => javaMethodScan (r.length + 1) 'd' r
            | none =>
              match dropLit "static".data s with
              | some r => javaMethodScan (r.length + 1) 'c' r
              | none => none
      else none
    match attempt with
    | some s' =>
      if s'.length < s.length then
        1 + countJavaMethodsAux fuel (isWordChar (lastConsumed s s' c)) s'
      else 1 + countJavaMethodsAux fuel (isWordChar c) rest
    | none => countJavaMethodsAux fuel (isWordChar c) rest

def countJavaMethods (code : String) : Nat :=
  countJavaMethodsAux (code.data.length + 1) false code.data

/-- After a `/*`, the lazy `.*?` (DOTALL) runs to the first `*/`; returns the
remainder after it, or `none` when the comment is unterminated. -/
def findCommentClose : List Char → Option (List Char)
  | [] => none
  | s@(_ :: rest) =>
    match dropLit "*/".data s with
    | some r => some r
    | none => findCommentClose rest

/-- `len(re.findall(r'//.*|/\*.*?\*/', code, re.DOTALL))`: with DOTALL the
first alternative `//.*` greedily consumes everything to the end of the
string, so a line comment ends the scan with one final match. -/
def countJavaCommentsAux : Nat → List Char → Nat
  | 0, _ => 0
  | _ + 1, [] => 0
  | fuel + 1, s@(c :: rest) =>
    if lStarts "//" s then 1
    else if lStarts "/*" s then
      match findCommentClose (s.drop 2) with
      | some s' => 1 + countJavaCommentsAux fuel s'
      | none => countJavaCommentsAux fuel rest
    else
      have := c
      countJavaCommentsAux fuel rest

def countJavaComments (code : String) : Nat :=
  countJavaCommentsAux (code.data.length + 1) code.data

/-- `JavaAnalyzer._calculate_complexity_metrics`: decision-point count with
switch weighted twice, then a simplified maintainability formula clamped to
[0, 100] (or 100 when there are no countable lines). -/
def calculate_complexity_metrics (code : String) : Rat × Rat :=
  let complexity_score : Nat :=
    1 + countPattern javaPatIf code + countPattern javaPatWhile code
      + countPattern javaPatFor code + countPattern javaPatSwitch code * 2
      + countPattern javaPatCatch code + countTernary code
  let lines := (splitNL code.data).filter
    (fun l => !(pyStripL l).isEmpty && !lStarts "//" (pyStripL l))
  let loc := lines.length
  let methods := countJavaMethods code
  let _classes := countPattern javaPatClass code
  if loc > 0 then
    let avg_complexity_per_method : Rat := (complexity_score : Rat) / (max 1 methods : Nat)
    let comment_ratio : Rat := (countJavaComments code : Rat) / (loc : Rat)
    let maintainability : Rat :=
      100 - avg_complexity_per_method * 5 - (loc : Rat) / 20 + comment_ratio * 10
    ((complexity_score : Rat), max 0 (min 100 maintainability))
  else ((complexity_score : Rat), 100)

/-! ## `analyzer_java.py`: Checkstyle parsing, basic analysis, analyze -/

/-- Issue dictionary shape used throughout `analyzer_java.py`. -/
structure JavaIssue where
  line : Nat
  column : Nat
  severity : String
  message : String
  source : String
  symbol : String
deriving DecidableEq

/-- `JavaAnalyzer._extract_rule_name`. -/
def extract_rule_name (source : String) : String :=
  if source = "" then "unknown"
  else ((source.splitOn ".").getLast?).getD source

/-- One `<error>` element of Checkstyle XML output, with the attribute
defaults of the source already applied by the XML layer. -/
structure CsError where
  line : Nat
  column : Nat
  severity : String
  message : String
  source : String
deriving DecidableEq

/-- `JavaAnalyzer._parse_checkstyle_xml` on a successfully parsed tree:
file elements each holding error elements; severity `error`
(case-insensitively) goes to errors, everything else to warnings. -/
def csXmlClassify : List (List CsError) → List JavaIssue × List JavaIssue
  | [] => ([], [])
  | f :: fs =>
    let (es, ws) := csXmlClassify fs
    let (fes, fws) := csXmlFileClassify f
    (fes ++ es, fws ++ ws)
where
  csXmlFileClassify : List CsError → List JavaIssue × List JavaIssue
    | [] => ([], [])
    | e :: rest =>
      let (es, ws) := csXmlFileClassify rest
      let issue : JavaIssue :=
        ⟨e.line, e.column, e.severity, e.message, e.source, extract_rule_name e.source⟩
      if pyLower issue.severity = "error" then (issue :: es, ws) else (es, issue :: ws)

/-- `(\d+):(\d+):\s+(.*?)\s+\[([^\]]+)\]` after the lazy filename gap of the
Checkstyle plain-text pattern. -/
def csAfterFile (s : List Char) : Option (Nat × Nat × String × String) :=
  match digits1 s with
  | none => none
  | some (ln, s1) =>
    match s1 with
    | ':' :: s2 =>
      match digits1 s2 with
      | none => none
      | some (col, s3) =>
        match s3 with
        | ':' :: s4 =>
          let s5 := s4.dropWhile isPyWS
          if s5.length = s4.length then none
          else
            match csMsgRule [] s5 with
            | some (msg, rule) => some (ln, col, String.mk msg, String.mk rule)
            | none => none
        | _ => none
    | _ => none
where
  /-- `(.*?)\s+\[([^\]]+)\]`: the message may be empty; at each point first
  try `\s+\[...`, else grow the message (`\s+` fails on the empty rest). -/
  csMsgRule (acc : List Char) : List Char → Option (List Char × List Char)
    | [] => none
    | s@(c :: rest) =>
      match csTryRule s with
      | some rule => some (acc.reverse, rule)
      | none => csMsgRule (c :: acc) rest
  /-- `\s+\[([^\]]+)\]` with trailing characters allowed. -/
  csTryRule (s : List Char) : Option (List Char) :=
    let s1 := s.dropWhile isPyWS
    if s1.length = s.length then none
    else
      match s1 with
      | '[' :: s2 =>
        let rule := s2.takeWhile (· ≠ ']')
        if rule.isEmpty then none
        else
          match s2.dropWhile (· ≠ ']') with
          | ']' :: _ => some rule
          | _ => none
      | _ => none

/-- `\[(\w+)\]\s+.*?:` — the head of the Checkstyle plain-text pattern — then
the rest; `re.match` anchors at the start of the (stripped) line.  The lazy
filename gap (`.*?` may be empty, never crosses a newline) is enumerated in
increasing order. -/
def parseCsTextLine (line : List Char) : Option (String × Nat × Nat × String × String) :=
  match line with
  | '[' :: s =>
    let sevcs := s.takeWhile isWordChar
    if sevcs.isEmpty then none
    else
      match s.dropWhile isWordChar with
      | ']' :: s2 =>
        let s3 := s2.dropWhile isPyWS
        if s3.length = s2.length then none
        else csLazyFile (String.mk sevcs) (s3.length + 1) s3
      | _ => none
  | _ => none
where
  csLazyFile (sev : String) : Nat → List Char → Option (String × Nat × Nat × String × String)
    | 0, _ => none
    | _ + 1, [] => none
    | fuel + 1, c :: rest =>
      if c = '\n' then none
      else if c = ':' then
        match csAfterFile rest with
        | some (ln, col, msg, rule) => some (sev, ln, col, msg, rule)
        | none => csLazyFile sev fuel rest
      else csLazyFile sev fuel rest

/-- `JavaAnalyzer._parse_checkstyle_text` (fallback when XML parsing fails):
audit banner lines and non-matching lines are skipped; severity `error`
(after lowercasing) goes to errors, everything else to warnings. -/
def parse_checkstyle_text (textOutput : String) : List JavaIssue × List JavaIssue :=
  csTextClassify (splitNL textOutput.data)
where
  csTextClassify : List (List Char) → List JavaIssue × List JavaIssue
    | [] => ([], [])
    | l :: ls =>
      let (es, ws) := csTextClassify ls
      let line := pyStripL l
      if line.isEmpty || containsSub "Starting audit".data line
          || containsSub "Audit done".data line then (es, ws)
      else
        match parseCsTextLine line with
        | none => (es, ws)
        | some (sev, ln, col, msg, rule) =>
          let issue : JavaIssue :=
            ⟨ln, col, pyLower sev, pyStrip msg, rule, rule⟩
          if pyLower sev = "error" then (issue :: es, ws) else (es, issue :: ws)

/-- The keyword substrings checked by the missing-semicolon heuristic. -/
def javaKeywordList : List String :=
  ["if", "else", "while", "for", "try", "catch", "finally"]

/-- The per-line checks of `JavaAnalyzer._basic_java_analysis`, in source
order, on the stripped line (1-based index `i`). -/
def basicJavaLineIssues (i : Nat) (stripped : List Char) : List JavaIssue × List JavaIssue :=
  if stripped.isEmpty || lStarts "//" stripped || lStarts "/*" stripped then ([], [])
  else
    let errors :=
      if lEnds ";" stripped
          && (lStarts "if" stripped || lStarts "while" stripped || lStarts "for" stripped) then
        [⟨i, 1, "error", "Control statement should not end with semicolon",
          "BasicSyntaxCheck", "ControlStatementSemicolon"⟩]
      else []
    let missingSemi :=
      if !(lEnds ";" stripped || lEnds "\x7b" stripped || lEnds "\x7d" stripped
            || lEnds ")" stripped || lEnds "//" stripped || lEnds "*/" stripped)
          && !(lStarts "@" stripped || lStarts "package" stripped || lStarts "import" stripped
                || lStarts "public class" stripped || lStarts "private class" stripped
                || lStarts "class" stripped)
          && !(javaKeywordList.any (fun kw => containsSub kw.data stripped))
          -- `re.match(r'^\s*(//|/\*|\*|\*/)', line)` on the stripped line:
          -- it starts with `//`, `/*` or `*` (the `*/` alternative is
          -- subsumed by `*`)
          && !(lStarts "//" stripped || lStarts "/*" stripped || lStarts "*" stripped) then
        [⟨i, stripped.length, "warning", "Statement might be missing semicolon",
          "BasicSyntaxCheck", "MissingSemicolon"⟩]
      else []
    let longLine :=
      if stripped.length > 120 then
        [⟨i, 120, "warning",
          "Line too long (" ++ toString stripped.length ++ " characters)",
          "LineLengthCheck", "LineLength"⟩]
      else []
    let tabs :=
      if containsSub ['\t'] stripped then
        [⟨i, ((findIdx '\t' stripped).getD 0) + 1, "warning",
          "Use spaces instead of tabs", "WhitespaceCheck", "TabCharacter"⟩]
      else []
    (errors, missingSemi ++ longLine ++ tabs)

/-- The line loop of `_basic_java_analysis` over `enumerate(lines, 1)`. -/
def basicJavaScan : Nat → List (List Char) → List JavaIssue × List JavaIssue
  | _, [] => ([], [])
  | i, l :: ls =>
    let (e1, w1) := basicJavaLineIssues i (pyStripL l)
    let (es, ws) := basicJavaScan (i + 1) ls
    (e1 ++ es, w1 ++ ws)

/-- `JavaAnalysisResult` dataclass. -/
structure JavaAnalysisResult where
  language : String
  errors : List JavaIssue
  warnings : List JavaIssue
  total_issues : Nat
  complexity : Rat
  maintainability_index : Rat
deriving DecidableEq

/-- `JavaAnalyzer._basic_java_analysis`: heuristic syntax scan plus the
pattern-based metrics. -/
def basic_java_analysis (code : String) : JavaAnalysisResult :=
  let (errors, warnings) := basicJavaScan 1 (splitNL code.data)
  let (complexity, maintainability) := calculate_complexity_metrics code
  ⟨"Java", errors, warnings, errors.length + warnings.length, complexity, maintainability⟩

/-- Outcome of the Checkstyle invocation in `JavaAnalyzer.analyze`:
probe says unavailable; any exception from `_run_checkstyle_analysis`
(timeout, executable missing, bad exit code) — caught by the outer
`except Exception` and sent to the basic analysis; XML output parsed by
`ElementTree` (`xmlOk`, one entry per `<file>` element with the attribute
defaults applied); or output that fails XML parsing (`xmlBad`, handed to the
plain-text fallback parser). -/
inductive CsRun
  | unavailable
  | runFailure (msg : String)
  | xmlOk (files : List (List CsError))
  | xmlBad (rawText : String)
deriving DecidableEq

/-- `JavaAnalyzer.analyze`. -/
def JavaAnalyzer.analyze (code : String) (run : CsRun) : JavaAnalysisResult :=
  match run with
  | .unavailable => basic_java_analysis code
  | .runFailure _ => basic_java_analysis code
  | .xmlOk files =>
    let (errors, warnings) := csXmlClassify files
    let (complexity, maintainability) := calculate_complexity_metrics code
    ⟨"Java", errors, warnings, errors.length + warnings.length, complexity, maintainability⟩
  | .xmlBad raw =>
    let (errors, warnings) := parse_checkstyle_text raw
    let (complexity, maintainability) := calculate_complexity_metrics code
    ⟨"Java", errors, warnings, errors.length + warnings.length, complexity, maintainability⟩

/-- Module-level `analyze_java_code` (the `language` parameter is accepted
and ignored, as in the source). -/
def analyze_java_code (code : String) (language : String) (run : CsRun) : JavaAnalysisResult :=
  have := language
  JavaAnalyzer.analyze code run

/-- The synthetic warning of the unsupported-language fallback in
`analyzer_java.py`'s module-level `analyze_code`. -/
def javaNotImplementedWarning (language : String) : JavaIssue :=
  ⟨1, 1, "warning", "Analysis not yet implemented for " ++ language,
    "UnsupportedLanguage", "NotImplemented"⟩

/-- `analyzer_java.py` module-level `analyze_code`: dispatch on the language
tag; unsupported languages get the neutral not-implemented result. -/
def analyzerJava.analyze_code (code : String) (language : String) (run : CsRun) :
    JavaAnalysisResult :=
  if pyLower language = "java" then analyze_java_code code language run
  else
    ⟨language, [], [javaNotImplementedWarning language], 1, 1, 75⟩

/-! ## `analyzer_js.py`: the ESLint adapter

`_calculate_complexity_score` is written for raw ESLint message
dictionaries but is called with the already-normalized issue dictionaries of
`_parse_eslint_output` (keys `line`, `column`, `message`, `severity`,
`symbol`, `rule_id`, with `severity` a *string*).  To keep the dictionary
`.get` semantics honest, Python values are modelled by `PyVal` and the
dynamic `*`/`+` operators return `Except` (a `TypeError` for the unsupported
operand combinations, exactly where CPython raises). -/

inductive PyVal
  | int (n : Int)
  | float (q : Rat)
  | str (s : String)
deriving DecidableEq

/-- `s * n` (Python sequence repetition; non-positive `n` gives `""`). -/
def pyStrRepeat (s : String) (n : Int) : String :=
  String.join (List.replicate n.toNat s)

/-- Python `*` on ints, floats and strings. -/
def pyMul : PyVal → PyVal → Except String PyVal
  | .int a, .int b => .ok (.int (a * b))
  | .int a, .float b => .ok (.float ((a : Rat) * b))
  | .float a, .int b => .ok (.float (a * (b : Rat)))
  | .float a, .float b => .ok (.float (a * b))
  | .int a, .str s => .ok (.str (pyStrRepeat s a))
  | .str s, .int a => .ok (.str (pyStrRepeat s a))
  | _, _ => .error "TypeError"

/-- Python `+` on ints, floats and strings. -/
def pyAdd : PyVal → PyVal → Except String PyVal
  | .int a, .int b => .ok (.int (a + b))
  | .int a, .float b => .ok (.float ((a : Rat) + b))
  | .float a, .int b => .ok (.float (a + (b : Rat)))
  | .float a, .float b => .ok (.float (a + b))
  | .str a, .str b => .ok (.str (a ++ b))
  | _, _ => .error "TypeError"

/-- One message of ESLint JSON output (`Option` for keys `.get` may miss;
ESLint emits `ruleId: null` for parse errors, folded into `none` here — no
claim distinguishes a null value from an absent key). -/
structure EslintMsg where
  line : Option Nat
  column : Option Nat
  message : Option String
  severity : Option Int
  ruleId : Option String
deriving DecidableEq

/-- One file entry of ESLint JSON output. -/
structure EslintFile where
  messages : List EslintMsg
deriving DecidableEq

/-- Issue dictionary built by `JavaScriptAnalyzer._parse_eslint_output`. -/
structure JSIssue where
  line : Nat
  column : Nat
  message : String
  severity : String
  symbol : String
  rule_id : String
deriving DecidableEq

/-- `issue.get(key, default)` on a parsed-issue dictionary: the dictionary
holds exactly the keys `line`, `column`, `message`, `severity`, `symbol`,
`rule_id`; any other key (in particular `ruleId`) yields the default. -/
def jsIssueGet (i : JSIssue) (key : String) (dflt : PyVal) : PyVal :=
  if key = "line" then .int i.line
  else if key = "column" then .int i.column
  else if key = "message" then .str i.message
  else if key = "severity" then .str i.severity
  else if key = "symbol" then .str i.symbol
  else if key = "rule_id" then .str i.rule_id
  else dflt

/-- The `complexity_indicators` weight table. -/
def complexity_indicators : List (String × Rat) :=
  [("no-unused-vars", 1/2), ("complexity", 2), ("max-depth", 3/2),
   ("max-nested-callbacks", 3/2), ("max-params", 1), ("max-statements", 1),
   ("cyclomatic-complexity", 2), ("no-loop-func", 1),
   ("no-inner-declarations", 1/2), ("no-eval", 3/2), ("no-implied-eval", 3/2),
   ("no-with", 1)]

/-- `complexity_indicators.get(rule_id, 0.1)`. -/
def indicatorWeight (ruleId : PyVal) : Rat :=
  match ruleId with
  | .str r => ((complexity_indicators.find? (fun p => p.1 = r)).map Prod.snd).getD (1/10)
  | _ => 1/10

/-- The accumulation loop of `_calculate_complexity_score`:
`total_complexity += weight * severity` with Python operator semantics. -/
def jsComplexityLoop : List JSIssue → PyVal → Except String PyVal
  | [], tc => .ok tc
  | i :: rest, tc => do
    let ruleId := jsIssueGet i "ruleId" (.str "")
    let severity := jsIssueGet i "severity" (.int 1)
    let weight := indicatorWeight ruleId
    let prod ← pyMul (.float weight) severity
    let tc' ← pyAdd tc prod
    jsComplexityLoop rest tc'

/-- `JavaScriptAnalyzer._calculate_complexity_score`: 1.0 for no issues, else
the weighted accumulation capped by `min(total_complexity, 20.0)` (`min` of a
string and a float would itself raise). -/
def calculate_complexity_score (issues : List JSIssue) : Except String Rat :=
  if issues.isEmpty then .ok 1
  else do
    let tc ← jsComplexityLoop issues (.float 1)
    match tc with
    | .float q => .ok (min q 20)
    | .int n => .ok (min (n : Rat) 20)
    | .str _ => .error "TypeError"

/-- The `critical_rules` list of `_calculate_maintainability_index`. -/
def critical_rules : List String :=
  ["no-eval", "no-implied-eval", "no-with", "no-global-assign",
   "no-unreachable", "no-unused-vars", "no-undef"]

/-- `error.get('ruleId')` on a parsed-issue dictionary is `None` (the key is
`rule_id`), and `None in critical_rules` is false. -/
def jsIssueGetOpt (i : JSIssue) (key : String) : Option PyVal :=
  if key = "line" then some (.int i.line)
  else if key = "column" then some (.int i.column)
  else if key = "message" then some (.str i.message)
  else if key = "severity" then some (.str i.severity)
  else if key = "symbol" then some (.str i.symbol)
  else if key = "rule_id" then some (.str i.rule_id)
  else none

/-- `JavaScriptAnalyzer._calculate_maintainability_index`. -/
def calculate_maintainability_index (errors warnings : List JSIssue) : Rat :=
  let error_deduction : Rat := (errors.length : Rat) * 5
  let warning_deduction : Rat := (warnings.length : Rat) * 2
  let extra : Rat :=
    ((errors.filter (fun e =>
        match jsIssueGetOpt e "ruleId" with
        | some (.str r) => critical_rules.contains r
        | _ => false)).length : Rat) * 3
  let final_score := 100 - (error_deduction + extra) - warning_deduction
  max 0 (min 100 final_score)

/-- Result record of `_parse_eslint_output`. -/
structure ParsedEslint where
  errors : List JSIssue
  warnings : List JSIssue
  total_issues : Nat
deriving DecidableEq

/-- The message loop of `_parse_eslint_output` for one file. -/
def eslintFileClassify : List EslintMsg → List JSIssue × List JSIssue
  | [] => ([], [])
  | m :: rest =>
    let (es, ws) := eslintFileClassify rest
    let issue : JSIssue :=
      ⟨m.line.getD 0, m.column.getD 0, m.message.getD "Unknown issue",
        if m.severity.getD 1 = 2 then "error" else "warning",
        m.ruleId.getD "unknown-rule", m.ruleId.getD "unknown-rule"⟩
    if m.severity.getD 1 = 2 then (issue :: es, ws) else (es, issue :: ws)

/-- `JavaScriptAnalyzer._parse_eslint_output`. -/
def parse_eslint_output : List EslintFile → ParsedEslint
  | files =>
    let (es, ws) := eslintAll files
    ⟨es, ws, es.length + ws.length⟩
where
  eslintAll : List EslintFile → List JSIssue × List JSIssue
    | [] => ([], [])
    | f :: fs =>
      let (e1, w1) := eslintFileClassify f.messages
      let (es, ws) := eslintAll fs
      (e1 ++ es, w1 ++ ws)

/-- `JSAnalysisResult` dataclass (`file_path`, a scratch-file name, is not
modelled). -/
structure JSAnalysisResult where
  language : String
  errors : List JSIssue
  warnings : List JSIssue
  total_issues : Nat
  complexity : Rat
  maintainability_index : Rat
deriving DecidableEq

/-- The fallback result when `_run_eslint` returns `None` (ESLint
unavailable, timeout, invocation failure, or malformed JSON). -/
def jsUnavailableResult (language : String) : JSAnalysisResult :=
  ⟨language, [],
    [⟨1, 1, "ESLint not available. Please install: npm install -g eslint",
      "warning", "eslint-unavailable", "unknown-rule"⟩],
    1, 5, 50⟩

/-- `JavaScriptAnalyzer.analyze_code`.  `eslint` models `_run_eslint`'s
return value: `none` for every failure mode, `some files` for decoded JSON
(an empty stdout decodes to the empty list).  A raised `TypeError` from the
complexity computation propagates: there is no `except` around it. -/
def JavaScriptAnalyzer.analyze_code (code : String) (language : String)
    (eslint : Option (List EslintFile)) : Except String JSAnalysisResult :=
  have := code
  match eslint with
  | none => .ok (jsUnavailableResult language)
  | some files =>
    let parsed := parse_eslint_output files
    match calculate_complexity_score (parsed.errors ++ parsed.warnings) with
    | .error e => .error e
    | .ok complexity =>
      let maintainability := calculate_maintainability_index parsed.errors parsed.warnings
      .ok ⟨language, parsed.errors, parsed.warnings, parsed.total_issues,
            complexity, maintainability⟩

/-- Module-level `analyze_javascript_code`. -/
def analyze_javascript_code (code : String) (language : String)
    (eslint : Option (List EslintFile)) : Except String JSAnalysisResult :=
  JavaScriptAnalyzer.analyze_code code language eslint

/-- The unsupported-language fallback of `analyzer_js.py`'s module-level
`analyze_code` (note: a `JSIssue` record without `rule_id`; the source dict
indeed omits the `rule_id` key there, `unknown-rule` stands for the absent
key and no claim reads it). -/
def jsUnsupportedResult (language : String) : JSAnalysisResult :=
  ⟨language, [],
    [⟨1, 1, "Language " ++ language ++ " not supported by JavaScript analyzer",
      "warning", "unsupported-language", "unknown-rule"⟩],
    1, 5, 50⟩

/-- The language tags accepted by `analyzer_js.py`'s module-level
`analyze_code`. -/
def jsLanguageTags : List String :=
  ["javascript", "js", "javascript (react)", "typescript", "ts"]

/-- `analyzer_js.py` module-level `analyze_code`. -/
def analyzerJs.analyze_code (code : String) (language : String)
    (eslint : Option (List EslintFile)) : Except String JSAnalysisResult :=
  if jsLanguageTags.contains (pyLower language) then
    analyze_javascript_code code language eslint
  else .ok (jsUnsupportedResult language)

/-! ## `analyzer_py.py`: the pylint + radon adapter -/

/-- One pylint issue dictionary (JSON-decoded or text-parsed).  Fields are
`Option` because `issue.get(key, default)` in `parse_analysis_results`
supplies defaults for absent keys. -/
structure PylintIssue where
  line : Option Nat
  column : Option Nat
  type : Option String
  message : Option String
  symbol : Option String
deriving DecidableEq

/-- `int(parts[k]) if parts[k].isdigit() else d`. -/
def intIfDigits (s : String) (d : Nat) : Nat :=
  if !s.data.isEmpty && s.data.all Char.isDigit then natOfDigits s.data else d

/-- `line.split(':', 4)` (at most 4 splits, 5 parts). -/
def pySplitColon4 (l : List Char) : List String :=
  go 4 [] l
where
  go : Nat → List Char → List Char → List String
    | _, acc, [] => [String.mk acc.reverse]
    | 0, acc, rest => [String.mk (acc.reverse ++ rest)]
    | n + 1, acc, c :: rest =>
      if c = ':' then String.mk acc.reverse :: go n [] rest
      else go (n + 1) (c :: acc) rest

/-- The severity substrings gating `_parse_pylint_text`. -/
def pylintSeverityWords : List String := ["error", "warning", "convention", "refactor"]

/-- `CodeAnalyzer._parse_pylint_text`, the fallback parser for pylint text
output (with the digit guards, the `except` clause is unreachable). -/
def parse_pylint_text (output : String) : List PylintIssue :=
  (splitNL output.data).filterMap parseLine
where
  parseLine (l : List Char) : Option PylintIssue :=
    if containsSub [':'] l && pylintSeverityWords.any (fun w => containsSub w.data l) then
      let parts := pySplitColon4 l
      if parts.length ≥ 4 then
        some ⟨some (intIfDigits (parts.getD 1 "") 1),
              some (intIfDigits (parts.getD 2 "") 0),
              some (pyStrip (parts.getD 3 "")),
              some (if parts.length > 4 then pyStrip (parts.getD 4 "") else "Unknown issue"),
              some "unknown"⟩
      else none
    else none

/-- `float(s)` for a string of digits and dots (the character class
`[\d.]+`): at most one dot and at least one digit, else a `ValueError`. -/
def pyFloatOfString (s : String) : Option Rat :=
  match s.splitOn "." with
  | [a] =>
    if !a.data.isEmpty && a.data.all Char.isDigit then some ((natOfDigits a.data : Nat) : Rat)
    else none
  | [a, b] =>
    if (a.data ++ b.data).all Char.isDigit && !(a.data.isEmpty && b.data.isEmpty) then
      some ((natOfDigits a.data : Rat) + (natOfDigits b.data : Rat) / ((10 : Rat) ^ b.data.length))
    else none
  | _ => none

/-- Literal prefix of the score pattern. -/
def pylintScoreLit : String := "Your code has been rated at "

/-- `re.search(r'Your code has been rated at ([\d.]+)/10', stderr)`:
scan for the literal, take the greedy `[\d.]+` run, require `/10`.
Outer `none`: no match anywhere (→ default).  `some none`: a match whose
`float()` conversion raises (caught → default).  `some (some q)`: score. -/
def pylintScoreScan : List Char → Option (Option Rat)
  | [] => none
  | s@(_ :: rest) =>
    match dropLit pylintScoreLit.data s with
    | some s1 =>
      let num := s1.takeWhile (fun c => c.isDigit || c = '.')
      if !num.isEmpty && lStarts "/10" (s1.drop num.length) then
        some (pyFloatOfString (String.mk num))
      else pylintScoreScan rest
    | none => pylintScoreScan rest

/-- `CodeAnalyzer._extract_pylint_score` (5.0 on no match or conversion
failure). -/
def extract_pylint_score (stderr : String) : Rat :=
  match pylintScoreScan stderr.data with
  | some (some q) => q
  | _ => 5

/-- What pylint's stdout decoded to: empty, a JSON list, JSON of some other
shape (dropped by the `isinstance(…, list)` check), or text that failed JSON
decoding (handed to the fallback text parser). -/
inductive PylintStdout
  | empty
  | jsonList (items : List PylintIssue)
  | jsonOther
  | malformed (rawText : String)
deriving DecidableEq

/-- Outcome of the pylint subprocess in `CodeAnalyzer.run_pylint`. -/
inductive PylintRun
  | timeout
  | notFound
  | runtimeError (msg : String)
  | output (stdout : PylintStdout) (stderr : String)
deriving DecidableEq

/-- `run_pylint`'s structured result: `_create_error_result` (which carries
`issues=[]`, `score=5.0`, an `error` message and an `error_type` tag) or the
success dictionary. -/
inductive PylintResult
  | err (errorType : String) (errorMessage : String)
  | ok (issues : List PylintIssue) (score : Rat)
deriving DecidableEq

/-- `CodeAnalyzer.run_pylint`. -/
def run_pylint : PylintRun → PylintResult
  | .timeout => .err "timeout" "Analysis timeout"
  | .notFound => .err "environment" "Pylint not installed"
  | .runtimeError m => .err "runtime" m
  | .output stdout stderr =>
    let issues :=
      match stdout with
      | .empty => []
      | .jsonList items => items
      | .jsonOther => []
      | .malformed raw => parse_pylint_text raw
    .ok issues (extract_pylint_score stderr)

/-- One item of a radon `cc` file entry: a dictionary with a `complexity`
key, or anything else (skipped by the `isinstance`/membership checks). -/
inductive CcItem
  | withComplexity (c : Rat)
  | other
deriving DecidableEq

/-- One value of the radon `cc` JSON dictionary: a list of items, or a
non-list (skipped by the `isinstance` check). -/
inductive CcFile
  | list (items : List CcItem)
  | nonlist
deriving DecidableEq

/-- The inner item loop of `_calculate_average_complexity` for one file. -/
def ccProcessFile : CcFile → Rat × Nat → Rat × Nat
  | .nonlist, acc => acc
  | .list items, acc =>
    items.foldl
      (fun acc it =>
        match it with
        | .withComplexity c => (acc.1 + c, acc.2 + 1)
        | .other => acc) acc

/-- The file loop of `_calculate_average_complexity`.  The source's
`if function_count==0: return 1.0` sits *inside* the `for` loop, so the check
runs after every file entry; the final division is reached only with a
positive count. -/
def ccAvgLoop : List (String × CcFile) → Rat → Nat → Rat
  | [], total, count => total / (count : Rat)
  | (_, fd) :: rest, total, count =>
    let (total', count') := ccProcessFile fd (total, count)
    if count' = 0 then 1 else ccAvgLoop rest total' count'

/-- `CodeAnalyzer._calculate_average_complexity`. -/
def calculate_average_complexity (ccData : List (String × CcFile)) : Rat :=
  if ccData.isEmpty then 1 else ccAvgLoop ccData 0 0

/-- One value of the radon `mi` JSON dictionary, as inspected by
`_extract_maintainability_index`: a dictionary with an `mi` key, a dictionary
without one, a bare number, or anything else. -/
inductive MiEntry
  | dictWithMi (mi : Rat)
  | dictNoMi
  | num (x : Rat)
  | other
deriving DecidableEq

/-- `CodeAnalyzer._extract_maintainability_index` (the `file_path` parameter
only feeds an unused `os.path.basename` call and is dropped): first
`mi`-keyed dictionary or bare number wins; 50.0 when none is found. -/
def extract_maintainability_index : List (String × MiEntry) → Rat
  | [] => 50
  | (_, .dictWithMi m) :: _ => m
  | (_, .num x) :: _ => x
  | (_, .dictNoMi) :: rest => extract_maintainability_index rest
  | (_, .other) :: rest => extract_maintainability_index rest

/-- Outcome of the two radon subprocesses in
`CodeAnalyzer.run_radon_complexity`.  In `output`, the payloads are the
JSON-decoded `cc` and `mi` dictionaries (empty list for empty stdout or a
decode failure, which the source treats as `{}`). -/
inductive RadonRun
  | timeout
  | notFound
  | runtimeError (msg : String)
  | output (ccData : List (String × CcFile)) (miData : List (String × MiEntry))
deriving DecidableEq

/-- `run_radon_complexity`'s structured result: `_create_error_result` or
the success dictionary with the two metrics. -/
inductive RadonResult
  | err (errorType : String) (errorMessage : String)
  | ok (complexity : Rat) (maintainability_index : Rat)
deriving DecidableEq

/-- `CodeAnalyzer.run_radon_complexity`. -/
def run_radon_complexity : RadonRun → RadonResult
  | .timeout => .err "timeout" "Complexity analysis timeout"
  | .notFound => .err "environment" "Radon not installed"
  | .runtimeError m => .err "runtime" m
  | .output ccData miData =>
    .ok (calculate_average_complexity ccData) (extract_maintainability_index miData)

/-- An entry of the final error/warning lists of `parse_analysis_results`:
either a synthetic `tool_error` dictionary (no line/column) or a normalized
pylint issue dictionary. -/
inductive PyIssueEntry
  | toolError (message : String) (severity : String)
  | lint (line : Nat) (column : Nat) (message : String) (symbol : String) (severity : String)
deriving DecidableEq

/-- The pylint-issue loop of `parse_analysis_results`: `error`/`fatal` types
become errors, every other type (including `convention` and `refactor`)
becomes a warning. -/
def classifyPylintIssues : List PylintIssue → List PyIssueEntry × List PyIssueEntry
  | [] => ([], [])
  | i :: rest =>
    let (es, ws) := classifyPylintIssues rest
    let t := pyLower (i.type.getD "")
    let entry : PyIssueEntry :=
      .lint (i.line.getD 1) (i.column.getD 0) (i.message.getD "Unknown issue")
        (i.symbol.getD "unknown") t
    if t = "error" || t = "fatal" then (entry :: es, ws) else (es, entry :: ws)

/-- The synthetic `tool_error` entries of `parse_analysis_results`
(`dict.get('error')` is truthy only for a nonempty message). -/
def toolErrorEntries (p : PylintResult) (r : RadonResult) : List PyIssueEntry :=
  (match p with
   | .err _ m => if m ≠ "" then [.toolError ("Pylint error: " ++ m) "high"] else []
   | .ok _ _ => []) ++
  (match r with
   | .err _ m => if m ≠ "" then [.toolError ("Complexity analysis error: " ++ m) "medium"] else []
   | .ok _ _ => [])

/-- The issue list carried by a pylint result (`.get('issues', [])`; the
error dictionary carries `issues=[]`). -/
def pylintIssuesOf : PylintResult → List PylintIssue
  | .err _ _ => []
  | .ok issues _ => issues

/-- `pyAnalysisResult` dataclass. -/
structure pyAnalysisResult where
  errors : List PyIssueEntry
  warnings : List PyIssueEntry
  complexity : Rat
  maintainability_index : Rat
  total_issues : Nat
  language : String
deriving DecidableEq

/-- `CodeAnalyzer.parse_analysis_results`.  `complexity` and
`maintainability_index` come from `radon_result.get(key, default)`: the error
dictionary has neither key, so the defaults 1.0 and 50.0 apply. -/
def parse_analysis_results (p : PylintResult) (r : RadonResult)
    (language : String) : pyAnalysisResult :=
  let (es, ws) := classifyPylintIssues (pylintIssuesOf p)
  let errors := toolErrorEntries p r ++ es
  let warnings := ws
  let complexity := match r with | .err _ _ => 1 | .ok c _ => c
  let maintainability := match r with | .err _ _ => 50 | .ok _ m => m
  ⟨errors, warnings, complexity, maintainability,
    errors.length + warnings.length, language⟩

/-- `CodeAnalyzer.analyze_python_code` (the code string is only written to
the scratch file consumed by the two tools, whose outcomes are the
parameters). -/
def CodeAnalyzer.analyze_python_code (code : String) (pl : PylintRun)
    (rd : RadonRun) : pyAnalysisResult :=
  have := code
  parse_analysis_results (run_pylint pl) (run_radon_complexity rd) "Python"

/-- `CodeAnalyzer.analyze_code`: for Python the full analysis; for every
other language the function body ends after the `if` (the entire
`else`/`_basic_analysis` branch is a string-literal, i.e. commented out), so
Python returns `None`. -/
def CodeAnalyzer.analyze_code (code : String) (language : String)
    (pl : PylintRun) (rd : RadonRun) : Option pyAnalysisResult :=
  if pyLower language = "python" then
    some (CodeAnalyzer.analyze_python_code code pl rd)
  else none

/-- Module-level `analyze_code_py`. -/
def analyze_code_py (code : String) (language : String) (pl : PylintRun)
    (rd : RadonRun) : Option pyAnalysisResult :=
  CodeAnalyzer.analyze_code code language pl rd

/-! ## Spec-side helper definitions -/

/-- All function-level complexity values across the file entries of a radon
`cc` payload, in order (the quantity whose mean the spec describes). -/
def functionComplexities (cc : List (String × CcFile)) : List Rat :=
  cc.foldr
    (fun p acc =>
      (match p.2 with
       | .list items =>
         items.filterMap (fun it =>
           match it with
           | .withComplexity c => some c
           | .other => none)
       | .nonlist => []) ++ acc) []

/-- Arithmetic mean of a list of rationals. -/
def ratMean (l : List Rat) : Rat :=
  l.sum / (l.length : Rat)

/-- Every complexity value in a radon `cc` payload is non-negative (true of
radon's actual output: cyclomatic complexity is a positive integer). -/
def ccDataNonneg (cc : List (String × CcFile)) : Bool :=
  cc.all (fun p =>
    match p.2 with
    | .list items =>
      items.all (fun it =>
        match it with
        | .withComplexity c => decide (0 ≤ c)
        | .other => true)
    | .nonlist => true)

/-- Every maintainability value in a radon `mi` payload lies in [0, 100]
(true of radon's actual output: its MI is normalized to that range). -/
def miDataBounded (mi : List (String × MiEntry)) : Bool :=
  mi.all (fun p =>
    match p.2 with
    | .dictWithMi m => decide (0 ≤ m) && decide (m ≤ 100)
    | .num x => decide (0 ≤ x) && decide (x ≤ 100)
    | .dictNoMi => true
    | .other => true)

/-- The radon payloads are within the tool's documented ranges (trivially
true for the failure outcomes, which carry no payload). -/
def radonRunOk : RadonRun → Bool
  | .output cc mi => ccDataNonneg cc && miDataBounded mi
  | _ => true

/-! ## Shared helper lemmas -/

theorem splitNL_ne_nil (s : List Char) : splitNL s ≠ [] := by
  induction s with
  | nil => simp [splitNL]
  | cons c rest ih =>
    simp only [splitNL]
    split
    · simp
    · cases h : splitNL rest with
      | nil => exact absurd h ih
      | cons l ls => simp

theorem splitNL_all_ws {s : List Char} (h : s.all isPyWS = true) :
    ∀ l ∈ splitNL s, l.all isPyWS = true := by
  induction s with
  | nil => intro l hl; simp [splitNL] at hl; simp [hl]
  | cons c rest ih =>
    simp only [List.all_cons, Bool.and_eq_true] at h
    intro l hl
    simp only [splitNL] at hl
    by_cases hc : c = '\n'
    · rw [if_pos hc] at hl
      rcases List.mem_cons.mp hl with rfl | hl
      · simp
      · exact ih h.2 l hl
    · rw [if_neg hc] at hl
      cases hrest : splitNL rest with
      | nil => exact absurd hrest (splitNL_ne_nil rest)
      | cons l0 ls =>
        rw [hrest] at hl
        rcases List.mem_cons.mp hl with rfl | hl
        · simp only [List.all_cons, Bool.and_eq_true]
          exact ⟨h.1, ih h.2 l0 (hrest ▸ List.mem_cons_self l0 ls)⟩
        · exact ih h.2 l (hrest ▸ List.mem_cons_of_mem l0 hl)

theorem pyStripL_all_ws {l : List Char} (h : l.all isPyWS = true) :
    pyStripL l = [] := by
  have h1 : l.dropWhile isPyWS = [] :=
    List.dropWhile_eq_nil_iff.mpr (fun x hx => List.all_eq_true.mp h x hx)
  simp [pyStripL, h1]

theorem ws_char_cases {c : Char} (h : isPyWS c = true) :
    c = ' ' ∨ c = '\t' ∨ c = '\n' ∨ c = '\r' ∨ c = '\x0b' ∨ c = '\x0c' := by
  simp only [isPyWS, Bool.or_eq_true, decide_eq_true_eq] at h
  tauto

theorem countPatAux_ws_zero (p : Pat)
    (hfail : ∀ (c : Char) (s : List Char), isPyWS c = true →
      matchRest p.toks (c :: s) = none) :
    ∀ (fuel : Nat) (prevW : Bool) (s : List Char), s.all isPyWS = true →
      countPatAux p fuel prevW s = 0 := by
  intro fuel
  induction fuel with
  | zero => intro prevW s _; rfl
  | succ n ih =>
    intro prevW s hs
    cases s with
    | nil => rfl
    | cons c rest =>
      simp only [List.all_cons, Bool.and_eq_true] at hs
      simp only [countPatAux, hfail c rest hs.1, ite_self]
      exact ih (isWordChar c) rest hs.2

theorem cppPatIf_ws_fail {c : Char} (s : List Char) (h : isPyWS c = true) :
    matchRest cppPatIf.toks (c :: s) = none := by
  rcases ws_char_cases h with rfl | rfl | rfl | rfl | rfl | rfl <;> rfl

theorem cppPatElseIf_ws_fail {c : Char} (s : List Char) (h : isPyWS c = true) :
    matchRest cppPatElseIf.toks (c :: s) = none := by
  rcases ws_char_cases h with rfl | rfl | rfl | rfl | rfl | rfl <;> rfl

theorem cppPatWhile_ws_fail {c : Char} (s : List Char) (h : isPyWS c = true) :
    matchRest cppPatWhile.toks (c :: s) = none := by
  rcases ws_char_cases h with rfl | rfl | rfl | rfl | rfl | rfl <;> rfl

theorem cppPatFor_ws_fail {c : Char} (s : List Char) (h : isPyWS c = true) :
    matchRest cppPatFor.toks (c :: s) = none := by
  rcases ws_char_cases h with rfl | rfl | rfl | rfl | rfl | rfl <;> rfl

theorem cppPatDo_ws_fail {c : Char} (s : List Char) (h : isPyWS c = true) :
    matchRest cppPatDo.toks (c :: s) = none := by
  rcases ws_char_cases h with rfl | rfl | rfl | rfl | rfl | rfl <;> rfl

theorem cppPatSwitch_ws_fail {c : Char} (s : List Char) (h : isPyWS c = true) :
    matchRest cppPatSwitch.toks (c :: s) = none := by
  rcases ws_char_cases h with rfl | rfl | rfl | rfl | rfl | rfl <;> rfl

theorem cppPatCase_ws_fail {c : Char} (s : List Char) (h : isPyWS c = true) :
    matchRest cppPatCase.toks (c :: s) = none := by
  rcases ws_char_cases h with rfl | rfl | rfl | rfl | rfl | rfl <;> rfl

theorem cppPatCatch_ws_fail {c : Char} (s : List Char) (h : isPyWS c = true) :
    matchRest cppPatCatch.toks (c :: s) = none := by
  rcases ws_char_cases h with rfl | rfl | rfl | rfl | rfl | rfl <;> rfl

theorem cppPatTernary_ws_fail {c : Char} (s : List Char) (h : isPyWS c = true) :
    matchRest cppPatTernary.toks (c :: s) = none := by
  rcases ws_char_cases h with rfl | rfl | rfl | rfl | rfl | rfl <;> rfl

theorem cppPatOr_ws_fail {c : Char} (s : List Char) (h : isPyWS c = true) :
    matchRest cppPatOr.toks (c :: s) = none := by
  rcases ws_char_cases h with rfl | rfl | rfl | rfl | rfl | rfl <;> rfl

theorem cppPatAnd_ws_fail {c : Char} (s : List Char) (h : isPyWS c = true) :
    matchRest cppPatAnd.toks (c :: s) = none := by
  rcases ws_char_cases h with rfl | rfl | rfl | rfl | rfl | rfl <;> rfl

theorem javaPatIf_ws_fail {c : Char} (s : List Char) (h : isPyWS c = true) :
    matchRest javaPatIf.toks (c :: s) = none := by
  rcases ws_char_cases h with rfl | rfl | rfl | rfl | rfl | rfl <;> rfl

theorem javaPatWhile_ws_fail {c : Char} (s : List Char) (h : isPyWS c = true) :
    matchRest javaPatWhile.toks (c :: s) = none := by
  rcases ws_char_cases h with rfl | rfl | rfl | rfl | rfl | rfl <;> rfl

theorem javaPatFor_ws_fail {c : Char} (s : List Char) (h : isPyWS c = true) :
    matchRest javaPatFor.toks (c :: s) = none := by
  rcases ws_char_cases h with rfl | rfl | rfl | rfl | rfl | rfl <;> rfl

theorem javaPatSwitch_ws_fail {c : Char} (s : List Char) (h : isPyWS c = true) :
    matchRest javaPatSwitch.toks (c :: s) = none := by
  rcases ws_char_cases h with rfl | rfl | rfl | rfl | rfl | rfl <;> rfl

theorem javaPatCatch_ws_fail {c : Char} (s : List Char) (h : isPyWS c = true) :
    matchRest javaPatCatch.toks (c :: s) = none := by
  rcases ws_char_cases h with rfl | rfl | rfl | rfl | rfl | rfl <;> rfl

theorem countTernaryAux_ws_zero :
    ∀ (fuel : Nat) (s : List Char), s.all isPyWS = true →
      countTernaryAux fuel s = 0 := by
  intro fuel
  induction fuel with
  | zero => intro s _; rfl
  | succ n ih =>
    intro s hs
    cases s with
    | nil => rfl
    | cons c rest =>
      simp only [List.all_cons, Bool.and_eq_true] at hs
      have hc : ¬(c = '?') := by
        rcases ws_char_cases hs.1 with rfl | rfl | rfl | rfl | rfl | rfl <;> decide
      simp only [countTernaryAux, if_neg hc]
      exact ih rest hs.2

/-- On whitespace-only source the Java metric heuristic yields complexity 1
and maintainability 100 (all decision-point counts vanish and there are no
countable lines). -/
theorem calculate_complexity_metrics_ws {code : String}
    (h : pyStripIsEmpty code = true) :
    calculate_complexity_metrics code = (1, 100) := by
  have hall : code.data.all isPyWS = true := h
  have hz : ∀ p ∈ [javaPatIf, javaPatWhile, javaPatFor, javaPatSwitch, javaPatCatch],
      countPattern p code = 0 := by
    intro p hp
    have hfail : ∀ (c : Char) (s : List Char), isPyWS c = true →
        matchRest p.toks (c :: s) = none := by
      simp only [List.mem_cons, List.not_mem_nil, or_false] at hp
      rcases hp with rfl | rfl | rfl | rfl | rfl
      · exact fun c s hc => javaPatIf_ws_fail s hc
      · exact fun c s hc => javaPatWhile_ws_fail s hc
      · exact fun c s hc => javaPatFor_ws_fail s hc
      · exact fun c s hc => javaPatSwitch_ws_fail s hc
      · exact fun c s hc => javaPatCatch_ws_fail s hc
    exact countPatAux_ws_zero p hfail _ false code.data hall
  have hter : countTernary code = 0 := countTernaryAux_ws_zero _ code.data hall
  have hlines : ((splitNL code.data).filter
      (fun l => !(pyStripL l).isEmpty && !lStarts "//" (pyStripL l))) = [] := by
    rw [List.filter_eq_nil_iff]
    intro l hl
    have : pyStripL l = [] := pyStripL_all_ws (splitNL_all_ws hall l hl)
    simp [this]
  simp only [calculate_complexity_metrics,
    hz javaPatIf (by simp), hz javaPatWhile (by simp), hz javaPatFor (by simp),
    hz javaPatSwitch (by simp), hz javaPatCatch (by simp), hter, hlines]
  norm_num

/-- The text-format classification keeps exactly the matched issues with
severity `error` (as errors) and `warning` (as warnings); matched issues of
any other severity appear in neither component. -/
theorem clangClassify_eq_filter (ls : List (List Char)) :
    clangClassify ls =
      ((ls.filterMap (fun l => (parseClangLine l).map clangIssueOfGroups)).filter
          (fun i => i.severity = "error"),
        (ls.filterMap (fun l => (parseClangLine l).map clangIssueOfGroups)).filter
          (fun i => i.severity = "warning")) := by
  induction ls with
  | nil => rfl
  | cons l rest ih =>
    simp only [clangClassify, ih, List.filterMap_cons]
    cases hp : parseClangLine l with
    | none => rfl
    | some g =>
      simp only [Option.map_some, List.filter_cons]
      by_cases he : (clangIssueOfGroups g).severity = "error"
      · simp [he]
      · by_cases hw : (clangIssueOfGroups g).severity = "warning"
        · simp [he, hw]
        · simp [he, hw]

theorem classifyPylintIssues_length (issues : List PylintIssue) :
    (classifyPylintIssues issues).1.length + (classifyPylintIssues issues).2.length
      = issues.length := by
  induction issues with
  | nil => rfl
  | cons i rest ih =>
    simp only [classifyPylintIssues]
    split
    · simpa [Nat.add_right_comm, Nat.add_assoc] using congrArg (· + 1) ih
    · simpa [Nat.add_assoc] using congrArg (· + 1) ih

theorem ccProcessFile_fold_nonneg (items : List CcItem) :
    ∀ (t : Rat) (k : Nat),
      (∀ c, CcItem.withComplexity c ∈ items → 0 ≤ c) → 0 ≤ t →
      0 ≤ (items.foldl
        (fun acc it =>
          match it with
          | .withComplexity c => (acc.1 + c, acc.2 + 1)
          | .other => acc) (t, k)).1 := by
  induction items with
  | nil => intro t k _ ht; exact ht
  | cons it rest ih =>
    intro t k hmem ht
    cases it with
    | withComplexity c =>
      simp only [List.foldl_cons]
      exact ih (t + c) (k + 1) (fun c' hc' => hmem c' (List.mem_cons_of_mem _ hc'))
        (add_nonneg ht (hmem c (List.mem_cons_self _ _)))
    | other =>
      simp only [List.foldl_cons]
      exact ih t k (fun c' hc' => hmem c' (List.mem_cons_of_mem _ hc')) ht

theorem ccAvgLoop_nonneg (l : List (String × CcFile)) :
    ∀ (t : Rat) (k : Nat), ccDataNonneg l = true → 0 ≤ t →
      0 ≤ ccAvgLoop l t k := by
  induction l with
  | nil =>
    intro t k _ ht
    exact div_nonneg ht (Nat.cast_nonneg k)
  | cons p rest ih =>
    intro t k hcc ht
    simp only [ccDataNonneg, List.all_cons, Bool.and_eq_true] at hcc
    simp only [ccAvgLoop]
    have hnn : 0 ≤ (ccProcessFile p.2 (t, k)).1 := by
      cases hfd : p.2 with
      | nonlist => simpa [ccProcessFile, hfd] using ht
      | list items =>
        have hmem : ∀ c, CcItem.withComplexity c ∈ items → 0 ≤ c := by
          intro c hc
          have := hcc.1
          rw [hfd] at this
          have := List.all_eq_true.mp this _ hc
          simpa using this
        simpa [ccProcessFile, hfd] using ccProcessFile_fold_nonneg items t k hmem ht
    split
    · norm_num
    · exact ih _ _ (by simpa [ccDataNonneg] using hcc.2) hnn

theorem calculate_average_complexity_nonneg {cc : List (String × CcFile)}
    (h : ccDataNonneg cc = true) : 0 ≤ calculate_average_complexity cc := by
  unfold calculate_average_complexity
  split
  · norm_num
  · exact ccAvgLoop_nonneg cc 0 0 h le_rfl

theorem extract_maintainability_index_bounds (mi : List (String × MiEntry)) :
    miDataBounded mi = true →
      0 ≤ extract_maintainability_index mi ∧ extract_maintainability_index mi ≤ 100 := by
  induction mi with
  | nil => intro _; constructor <;> norm_num [extract_maintainability_index]
  | cons p rest ih =>
    intro h
    simp only [miDataBounded, List.all_cons, Bool.and_eq_true] at h
    obtain ⟨hp, hrest⟩ := h
    obtain ⟨name, entry⟩ := p
    cases entry with
    | dictWithMi m =>
      simp only [Bool.and_eq_true, decide_eq_true_eq] at hp
      simpa [extract_maintainability_index] using hp
    | num x =>
      simp only [Bool.and_eq_true, decide_eq_true_eq] at hp
      simpa [extract_maintainability_index] using hp
    | dictNoMi =>
      simpa [extract_maintainability_index] using ih (by simpa [miDataBounded] using hrest)
    | other =>
      simpa [extract_maintainability_index] using ih (by simpa [miDataBounded] using hrest)

/-- The item loop of `_calculate_average_complexity` accumulates exactly the
sum and the count of the function-level complexity values of one file. -/
theorem ccProcessFile_fold_eq (items : List CcItem) :
    ∀ (t : Rat) (k : Nat),
      (items.foldl
        (fun acc it =>
          match it with
          | .withComplexity c => (acc.1 + c, acc.2 + 1)
          | .other => acc) (t, k)) =
      (t + (items.filterMap (fun it =>
          match it with
          | .withComplexity c => some c
          | .other => none)).sum,
        k + (items.filterMap (fun it =>
          match it with
          | .withComplexity c => some c
          | .other => none)).length) := by
  induction items with
  | nil => intro t k; simp
  | cons it rest ih =>
    intro t k
    cases it with
    | withComplexity c =>
      simp only [List.foldl_cons, List.filterMap_cons, ih, List.sum_cons, List.length_cons]
      rw [Prod.mk.injEq]
      constructor
      · ring
      · omega
    | other =>
      simp only [List.foldl_cons, List.filterMap_cons, ih]

/-! ## Claim theorems -/

/-- C1: for every analysis result produced by any backend adapter — the C++
analyzer, the Java analyzer and its dispatching entry point, the JavaScript
analyzer and its dispatching entry point (whenever they return a result at
all), and the Python result assembler — the `total_issues` field equals the
length of the errors list plus the length of the warnings list. -/
theorem C1_total_issues_invariant :
    (∀ (avail : Bool) (code language : String) (run : TidyRun),
      (CppAnalyzer.analyze avail code language run).total_issues =
        (CppAnalyzer.analyze avail code language run).errors.length +
          (CppAnalyzer.analyze avail code language run).warnings.length) ∧
    (∀ (code : String) (run : CsRun),
      (JavaAnalyzer.analyze code run).total_issues =
        (JavaAnalyzer.analyze code run).errors.length +
          (JavaAnalyzer.analyze code run).warnings.length) ∧
    (∀ (code language : String) (run : CsRun),
      (analyzerJava.analyze_code code language run).total_issues =
        (analyzerJava.analyze_code code language run).errors.length +
          (analyzerJava.analyze_code code language run).warnings.length) ∧
    (∀ (code language : String) (es : Option (List EslintFile)) (r : JSAnalysisResult),
      JavaScriptAnalyzer.analyze_code code language es = Except.ok r →
        r.total_issues = r.errors.length + r.warnings.length) ∧
    (∀ (code language : String) (es : Option (List EslintFile)) (r : JSAnalysisResult),
      analyzerJs.analyze_code code language es = Except.ok r →
        r.total_issues = r.errors.length + r.warnings.length) ∧
    (∀ (p : PylintResult) (rr : RadonResult) (language : String),
      (parse_analysis_results p rr language).total_issues =
        (parse_analysis_results p rr language).errors.length +
          (parse_analysis_results p rr language).warnings.length) := by
  have hcpp : ∀ (avail : Bool) (code language : String) (run : TidyRun),
      (CppAnalyzer.analyze avail code language run).total_issues =
        (CppAnalyzer.analyze avail code language run).errors.length +
          (CppAnalyzer.analyze avail code language run).warnings.length := by
    intro avail code language run
    unfold CppAnalyzer.analyze
    split <;> rfl
  have hjava : ∀ (code : String) (run : CsRun),
      (JavaAnalyzer.analyze code run).total_issues =
        (JavaAnalyzer.analyze code run).errors.length +
          (JavaAnalyzer.analyze code run).warnings.length := by
    intro code run
    cases run <;> rfl
  have hjs : ∀ (code language : String) (es : Option (List EslintFile)) (r : JSAnalysisResult),
      JavaScriptAnalyzer.analyze_code code language es = Except.ok r →
        r.total_issues = r.errors.length + r.warnings.length := by
    intro code language es r h
    cases es with
    | none =>
      simp only [JavaScriptAnalyzer.analyze_code, Except.ok.injEq] at h
      subst h
      rfl
    | some files =>
      simp only [JavaScriptAnalyzer.analyze_code] at h
      rcases hc : calculate_complexity_score
          ((parse_eslint_output files).errors ++ (parse_eslint_output files).warnings)
        with e | cx
      · rw [hc] at h
        simp at h
      · rw [hc] at h
        simp only [Except.ok.injEq] at h
        subst h
        rfl
  refine ⟨hcpp, hjava, ?_, hjs, ?_, ?_⟩
  · intro code language run
    unfold analyzerJava.analyze_code
    split
    · exact hjava code run
    · rfl
  · intro code language es r h
    unfold analyzerJs.analyze_code at h
    split at h
    · exact hjs code language es r h
    · simp only [Except.ok.injEq] at h
      subst h
      rfl
  · intro p rr language
    rfl

/-- Witness for C1: the JavaScript conjuncts have an `ok`-result hypothesis;
at the ESLint-unavailable outcome the returned result satisfies the
invariant. -/
theorem C1_total_issues_witness :
    (jsUnavailableResult "JavaScript").total_issues =
      (jsUnavailableResult "JavaScript").errors.length +
        (jsUnavailableResult "JavaScript").warnings.length ∧
    (jsUnsupportedResult "Rust").total_issues =
      (jsUnsupportedResult "Rust").errors.length +
        (jsUnsupportedResult "Rust").warnings.length :=
  ⟨C1_total_issues_invariant.2.2.2.1 "var x = 1;" "JavaScript" none
      (jsUnavailableResult "JavaScript") rfl,
    C1_total_issues_invariant.2.2.2.2.1 "fn main() ()" "Rust" none
      (jsUnsupportedResult "Rust")
      (show analyzerJs.analyze_code "fn main() ()" "Rust" none =
          Except.ok (jsUnsupportedResult "Rust") from rfl)⟩

/-- A clang-tidy `note` diagnostic line (the shape clang-tidy emits for
supplementary notes attached to a warning). -/
def clangNoteLine : String :=
  "/tmp/temp_code.cpp:3:5: note: previous definition is here [misc-unused]"

/-- C4 counterexample: the claim says no native severity the tool can emit —
explicitly including clang-tidy's `note` — causes an issue to be dropped from
both lists.  This `note` line matches the C++ text parser's pattern, yet the
classification appends it to neither the errors nor the warnings. -/
theorem C4_note_dropped_counterexample :
    (parseClangLine clangNoteLine.data).map ClangGroups.sev = some "note" ∧
    parse_clang_tidy_output_text clangNoteLine = ([], []) :=
  ⟨rfl, rfl⟩

/-- C4 as amended: severity mapping is total for the Python adapter (types
`error`/`fatal` become errors and every other type becomes a warning, so no
pylint issue is dropped), and the C++ text parser maps matched `error` and
`warning` lines to exactly the corresponding list — but matched lines of any
other severity (clang-tidy `note`) are dropped from both lists. -/
theorem C4_severity_mapping_amended :
    (∀ output : String,
      parse_clang_tidy_output_text output =
        ((clangMatchedIssues output).filter (fun i => i.severity = "error"),
          (clangMatchedIssues output).filter (fun i => i.severity = "warning"))) ∧
    (∀ (p : PylintResult) (r : RadonResult) (language : String),
      (parse_analysis_results p r language).errors.length +
          (parse_analysis_results p r language).warnings.length =
        (toolErrorEntries p r).length + (pylintIssuesOf p).length) := by
  constructor
  · intro output
    exact clangClassify_eq_filter (splitNL output.data)
  · intro p r language
    show ((toolErrorEntries p r ++ (classifyPylintIssues (pylintIssuesOf p)).1).length +
      (classifyPylintIssues (pylintIssuesOf p)).2.length = _)
    rw [List.length_append, Nat.add_assoc, classifyPylintIssues_length]

/-- C3 counterexample: the JavaScript adapter has no empty-input special
case; analyzing the empty string with ESLint unavailable yields complexity
5.0 and maintainability 50.0, not the claimed 1.0 and 100.0. -/
theorem C3_empty_input_counterexample :
    (JavaScriptAnalyzer.analyze_code "" "JavaScript" none).map
        JSAnalysisResult.complexity = Except.ok 5 ∧
    (JavaScriptAnalyzer.analyze_code "" "JavaScript" none).map
        JSAnalysisResult.maintainability_index = Except.ok 50 ∧
    (5 : Rat) ≠ 1 ∧ (50 : Rat) ≠ 100 :=
  ⟨rfl, rfl, by norm_num, by norm_num⟩

/-- C3 as amended: empty (or whitespace-only) input yields complexity exactly
1.0 and maintainability exactly 100.0 for the C++ adapter (explicit
empty-input branch) and the Java adapter (its metric heuristic vanishes on
whitespace); the JavaScript and Python adapters have no empty-input special
case — with their tools unavailable the JavaScript adapter returns 5.0/50.0
and the Python adapter the defaults 1.0/50.0. -/
theorem C3_empty_input_amended :
    (∀ (avail : Bool) (code language : String) (run : TidyRun),
      pyStripIsEmpty code = true →
        (CppAnalyzer.analyze avail code language run).complexity = 1 ∧
        (CppAnalyzer.analyze avail code language run).maintainability_index = 100) ∧
    (∀ (code : String) (run : CsRun),
      pyStripIsEmpty code = true →
        (JavaAnalyzer.analyze code run).complexity = 1 ∧
        (JavaAnalyzer.analyze code run).maintainability_index = 100) ∧
    (∀ language : String,
      JavaScriptAnalyzer.analyze_code "" language none =
          Except.ok (jsUnavailableResult language) ∧
        (jsUnavailableResult language).complexity = 5 ∧
        (jsUnavailableResult language).maintainability_index = 50) ∧
    ((CodeAnalyzer.analyze_python_code "" PylintRun.notFound RadonRun.notFound).complexity = 1 ∧
      (CodeAnalyzer.analyze_python_code "" PylintRun.notFound
          RadonRun.notFound).maintainability_index = 50) := by
  refine ⟨?_, ?_, ?_, rfl, rfl⟩
  · intro avail code language run h
    simp [CppAnalyzer.analyze, h]
  · intro code run h
    cases run <;>
      simp [JavaAnalyzer.analyze, basic_java_analysis, calculate_complexity_metrics_ws h]
  · intro language
    exact ⟨rfl, rfl, rfl⟩

/-- Witness for C3 (amended): the whitespace-only input `" \n\t"` through
the C++ and Java adapters. -/
theorem C3_empty_input_witness :
    ((CppAnalyzer.analyze true " \n\t" "C++" TidyRun.timeout).complexity = 1 ∧
      (CppAnalyzer.analyze true " \n\t" "C++" TidyRun.timeout).maintainability_index = 100) ∧
    ((JavaAnalyzer.analyze " \n\t" CsRun.unavailable).complexity = 1 ∧
      (JavaAnalyzer.analyze " \n\t" CsRun.unavailable).maintainability_index = 100) :=
  ⟨C3_empty_input_amended.1 true " \n\t" "C++" TidyRun.timeout (by decide),
    C3_empty_input_amended.2.1 " \n\t" CsRun.unavailable (by decide)⟩

theorem clamp_0_100_bounds (x : Rat) :
    0 ≤ max 0 (min 100 x) ∧ max 0 (min 100 x) ≤ 100 :=
  ⟨le_max_left 0 _, max_le (by norm_num) (min_le_left _ _)⟩

theorem estimate_complexity_from_code_nonneg (code : String) :
    0 ≤ estimate_complexity_from_code code :=
  Nat.cast_nonneg _

theorem estimate_maintainability_index_bounds (code : String) (complexity : Rat) :
    0 ≤ estimate_maintainability_index code complexity ∧
      estimate_maintainability_index code complexity ≤ 100 := by
  unfold estimate_maintainability_index
  dsimp only
  split
  · norm_num
  · exact clamp_0_100_bounds _

theorem calculate_complexity_metrics_bounds (code : String) :
    0 ≤ (calculate_complexity_metrics code).1 ∧
      0 ≤ (calculate_complexity_metrics code).2 ∧
      (calculate_complexity_metrics code).2 ≤ 100 := by
  unfold calculate_complexity_metrics
  dsimp only
  split
  · exact ⟨Nat.cast_nonneg _, (clamp_0_100_bounds _).1, (clamp_0_100_bounds _).2⟩
  · exact ⟨Nat.cast_nonneg _, by norm_num, by norm_num⟩

theorem jsComplexityLoop_cons (i : JSIssue) (rest : List JSIssue) (tc : PyVal) :
    jsComplexityLoop (i :: rest) tc = Except.error "TypeError" := rfl

theorem calculate_complexity_score_ok {issues : List JSIssue} {q : Rat}
    (h : calculate_complexity_score issues = Except.ok q) : q = 1 := by
  cases issues with
  | nil =>
    simp only [calculate_complexity_score, List.isEmpty_nil, if_pos, Except.ok.injEq] at h
    exact h.symm
  | cons i rest =>
    rw [show calculate_complexity_score (i :: rest) = Except.error "TypeError" from rfl] at h
    cases h

/-- C5: every analysis result produced by any backend adapter has
`maintainability_index` in [0, 100] and non-negative `complexity`.  For the
Python adapter this holds under the hypothesis `radonRunOk` — the radon
payload values lie in the tool's documented ranges (its cyclomatic
complexities are positive and its maintainability index is normalized to
[0, 100]); the adapter itself does not clamp them. -/
theorem C5_metric_bounds :
    (∀ (avail : Bool) (code language : String) (run : TidyRun),
      0 ≤ (CppAnalyzer.analyze avail code language run).complexity ∧
      0 ≤ (CppAnalyzer.analyze avail code language run).maintainability_index ∧
      (CppAnalyzer.analyze avail code language run).maintainability_index ≤ 100) ∧
    (∀ (code : String) (run : CsRun),
      0 ≤ (JavaAnalyzer.analyze code run).complexity ∧
      0 ≤ (JavaAnalyzer.analyze code run).maintainability_index ∧
      (JavaAnalyzer.analyze code run).maintainability_index ≤ 100) ∧
    (∀ (code language : String) (run : CsRun),
      0 ≤ (analyzerJava.analyze_code code language run).complexity ∧
      0 ≤ (analyzerJava.analyze_code code language run).maintainability_index ∧
      (analyzerJava.analyze_code code language run).maintainability_index ≤ 100) ∧
    (∀ (code language : String) (es : Option (List EslintFile)) (r : JSAnalysisResult),
      JavaScriptAnalyzer.analyze_code code language es = Except.ok r →
        0 ≤ r.complexity ∧ 0 ≤ r.maintainability_index ∧ r.maintainability_index ≤ 100) ∧
    (∀ (code language : String) (es : Option (List EslintFile)) (r : JSAnalysisResult),
      analyzerJs.analyze_code code language es = Except.ok r →
        0 ≤ r.complexity ∧ 0 ≤ r.maintainability_index ∧ r.maintainability_index ≤ 100) ∧
    (∀ (code : String) (pl : PylintRun) (rd : RadonRun),
      radonRunOk rd = true →
        0 ≤ (CodeAnalyzer.analyze_python_code code pl rd).complexity ∧
        0 ≤ (CodeAnalyzer.analyze_python_code code pl rd).maintainability_index ∧
        (CodeAnalyzer.analyze_python_code code pl rd).maintainability_index ≤ 100) := by
  have hjavaA : ∀ (code : String) (run : CsRun),
      0 ≤ (JavaAnalyzer.analyze code run).complexity ∧
      0 ≤ (JavaAnalyzer.analyze code run).maintainability_index ∧
      (JavaAnalyzer.analyze code run).maintainability_index ≤ 100 := by
    intro code run
    have hm := calculate_complexity_metrics_bounds code
    cases run <;> exact ⟨hm.1, hm.2.1, hm.2.2⟩
  have hjsA : ∀ (code language : String) (es : Option (List EslintFile)) (r : JSAnalysisResult),
      JavaScriptAnalyzer.analyze_code code language es = Except.ok r →
        0 ≤ r.complexity ∧ 0 ≤ r.maintainability_index ∧ r.maintainability_index ≤ 100 := by
    intro code language es r h
    cases es with
    | none =>
      simp only [JavaScriptAnalyzer.analyze_code, Except.ok.injEq] at h
      subst h
      exact ⟨show (0 : Rat) ≤ 5 by norm_num, show (0 : Rat) ≤ 50 by norm_num,
        show (50 : Rat) ≤ 100 by norm_num⟩
    | some files =>
      simp only [JavaScriptAnalyzer.analyze_code] at h
      rcases hc : calculate_complexity_score
          ((parse_eslint_output files).errors ++ (parse_eslint_output files).warnings)
        with e | cx
      · rw [hc] at h
        simp at h
      · rw [hc] at h
        simp only [Except.ok.injEq] at h
        subst h
        have h1 : cx = 1 := calculate_complexity_score_ok hc
        exact ⟨by rw [h1]; norm_num, (clamp_0_100_bounds _).1, (clamp_0_100_bounds _).2⟩
  refine ⟨?_, hjavaA, ?_, hjsA, ?_, ?_⟩
  · intro avail code language run
    unfold CppAnalyzer.analyze
    split
    · exact ⟨show (0 : Rat) ≤ 1 by norm_num, show (0 : Rat) ≤ 100 by norm_num,
        show (100 : Rat) ≤ 100 by norm_num⟩
    · exact ⟨estimate_complexity_from_code_nonneg code,
        (estimate_maintainability_index_bounds code _).1,
        (estimate_maintainability_index_bounds code _).2⟩
  · intro code language run
    unfold analyzerJava.analyze_code
    split
    · exact hjavaA code run
    · exact ⟨show (0 : Rat) ≤ 1 by norm_num, show (0 : Rat) ≤ 75 by norm_num,
        show (75 : Rat) ≤ 100 by norm_num⟩
  · intro code language es r h
    unfold analyzerJs.analyze_code at h
    split at h
    · exact hjsA code language es r h
    · simp only [Except.ok.injEq] at h
      subst h
      exact ⟨show (0 : Rat) ≤ 5 by norm_num, show (0 : Rat) ≤ 50 by norm_num,
        show (50 : Rat) ≤ 100 by norm_num⟩
  · intro code pl rd h
    cases rd with
    | timeout =>
      exact ⟨show (0 : Rat) ≤ 1 by norm_num, show (0 : Rat) ≤ 50 by norm_num,
        show (50 : Rat) ≤ 100 by norm_num⟩
    | notFound =>
      exact ⟨show (0 : Rat) ≤ 1 by norm_num, show (0 : Rat) ≤ 50 by norm_num,
        show (50 : Rat) ≤ 100 by norm_num⟩
    | runtimeError m =>
      exact ⟨show (0 : Rat) ≤ 1 by norm_num, show (0 : Rat) ≤ 50 by norm_num,
        show (50 : Rat) ≤ 100 by norm_num⟩
    | output cc mi =>
      simp only [radonRunOk, Bool.and_eq_true] at h
      have hcx : (CodeAnalyzer.analyze_python_code code pl (RadonRun.output cc mi)).complexity =
          calculate_average_complexity cc := rfl
      have hmi : (CodeAnalyzer.analyze_python_code code pl
          (RadonRun.output cc mi)).maintainability_index =
          extract_maintainability_index mi := rfl
      rw [hcx, hmi]
      exact ⟨calculate_average_complexity_nonneg h.1,
        (extract_maintainability_index_bounds mi h.2).1,
        (extract_maintainability_index_bounds mi h.2).2⟩

/-- Witness for C5: concrete inputs discharging the `ok`-result hypotheses of
the JavaScript conjuncts and the radon-range hypothesis of the Python
conjunct. -/
theorem C5_metric_bounds_witness :
    (0 ≤ (jsUnavailableResult "JavaScript").complexity ∧
      0 ≤ (jsUnavailableResult "JavaScript").maintainability_index ∧
      (jsUnavailableResult "JavaScript").maintainability_index ≤ 100) ∧
    (0 ≤ (CodeAnalyzer.analyze_python_code "x = 1" PylintRun.notFound
        (RadonRun.output [("f.py", CcFile.list [CcItem.withComplexity 3])]
          [("f.py", MiEntry.dictWithMi 60)])).complexity ∧
      0 ≤ (CodeAnalyzer.analyze_python_code "x = 1" PylintRun.notFound
        (RadonRun.output [("f.py", CcFile.list [CcItem.withComplexity 3])]
          [("f.py", MiEntry.dictWithMi 60)])).maintainability_index ∧
      (CodeAnalyzer.analyze_python_code "x = 1" PylintRun.notFound
        (RadonRun.output [("f.py", CcFile.list [CcItem.withComplexity 3])]
          [("f.py", MiEntry.dictWithMi 60)])).maintainability_index ≤ 100) :=
  ⟨C5_metric_bounds.2.2.2.1 "var x = 1;" "JavaScript" none
      (jsUnavailableResult "JavaScript") rfl,
    C5_metric_bounds.2.2.2.2.2 "x = 1" PylintRun.notFound
      (RadonRun.output [("f.py", CcFile.list [CcItem.withComplexity 3])]
        [("f.py", MiEntry.dictWithMi 60)]) (by decide)⟩

/-- C6 counterexample: on a radon `cc` payload whose first file entry
carries no function-level values, `_calculate_average_complexity` returns
1.0 even though function-level values exist (the zero-count early return
sits inside the file loop); the mean of the reported values is 5.0. -/
theorem C6_average_complexity_counterexample :
    calculate_average_complexity
        [("a.py", CcFile.list []), ("b.py", CcFile.list [CcItem.withComplexity 5])] = 1 ∧
    ratMean (functionComplexities
        [("a.py", CcFile.list []), ("b.py", CcFile.list [CcItem.withComplexity 5])]) = 5 ∧
    (1 : Rat) ≠ 5 := by
  refine ⟨rfl, ?_, by norm_num⟩
  show ((5 : Rat) + 0) / ((1 : Nat) : Rat) = 5
  norm_num

/-- C6 as amended: on single-file `cc` payloads — the only shape this
adapter produces, since radon is invoked on exactly one scratch file — the
reported complexity is the arithmetic mean of the function-level complexity
values, and exactly 1.0 when there are none.  (On multi-file payloads the
misplaced zero-count check can return 1.0 prematurely, as the
counterexample shows.) -/
theorem C6_average_complexity_amended :
    ∀ (name : String) (fd : CcFile),
      (functionComplexities [(name, fd)] = [] →
        calculate_average_complexity [(name, fd)] = 1) ∧
      (functionComplexities [(name, fd)] ≠ [] →
        calculate_average_complexity [(name, fd)] =
          ratMean (functionComplexities [(name, fd)])) := by
  intro name fd
  cases fd with
  | nonlist =>
    exact ⟨fun _ => rfl, fun h => absurd rfl h⟩
  | list items =>
    have hfc : functionComplexities [(name, CcFile.list items)] =
        items.filterMap (fun it =>
          match it with
          | .withComplexity c => some c
          | .other => none) := by
      simp [functionComplexities]
    have hcpf : ccProcessFile (CcFile.list items) (0, 0) =
        ((items.filterMap (fun it =>
            match it with
            | .withComplexity c => some c
            | .other => none)).sum,
          (items.filterMap (fun it =>
            match it with
            | .withComplexity c => some c
            | .other => none)).length) := by
      simpa [ccProcessFile] using ccProcessFile_fold_eq items 0 0
    have key : calculate_average_complexity [(name, CcFile.list items)] =
        (if (items.filterMap (fun it =>
              match it with
              | .withComplexity c => some c
              | .other => none)).length = 0 then 1
          else (items.filterMap (fun it =>
              match it with
              | .withComplexity c => some c
              | .other => none)).sum /
            (((items.filterMap (fun it =>
              match it with
              | .withComplexity c => some c
              | .other => none)).length : Nat) : Rat)) := by
      unfold calculate_average_complexity
      rw [if_neg (by simp)]
      show (let p := ccProcessFile (CcFile.list items) (0, 0);
        if p.2 = 0 then 1 else ccAvgLoop [] p.1 p.2) = _
      rw [hcpf]
      dsimp only
      split
      · rfl
      · rfl
    constructor
    · intro h0
      rw [hfc] at h0
      rw [key, if_pos (by rw [h0]; rfl)]
    · intro hne
      rw [hfc] at hne
      rw [key, if_neg (by simpa using hne), hfc]
      rfl

/-- Witness for C6 (amended): a single-file payload with function
complexities 3 and 5 has mean 4, and that is what the adapter reports. -/
theorem C6_average_complexity_witness :
    functionComplexities
        [("f.py", CcFile.list [CcItem.withComplexity 3, CcItem.withComplexity 5])] ≠ [] ∧
    calculate_average_complexity
        [("f.py", CcFile.list [CcItem.withComplexity 3, CcItem.withComplexity 5])] =
      ratMean (functionComplexities
        [("f.py", CcFile.list [CcItem.withComplexity 3, CcItem.withComplexity 5])]) :=
  ⟨by decide,
    (C6_average_complexity_amended "f.py"
      (CcFile.list [CcItem.withComplexity 3, CcItem.withComplexity 5])).2 (by decide)⟩

/-- C7 failing-input evaluation: on a successful ESLint run reporting one
message with numeric severity 2 and ruleId `no-undef`, the complexity
computation raises a `TypeError` (the parsed issue dictionaries store the
rule under `rule_id` and the severity as the string `error`, so
`weight * severity` multiplies a float by a string) instead of producing the
claimed 1.0 + 0.1 weighted sum. -/
theorem C7_complexity_score_type_error :
    JavaScriptAnalyzer.analyze_code "var x = y;" "JavaScript"
        (some [⟨[⟨some 1, some 9, some "y is not defined", some 2, some "no-undef"⟩]⟩]) =
      Except.error "TypeError" := rfl

/-- C8: requesting analysis for a language the Java-module dispatcher does
not support yields zero errors, exactly one warning whose rule symbol is
`NotImplemented`, complexity 1.0 and maintainability 75.0. -/
theorem C8_unsupported_language_result :
    ∀ (code language : String) (run : CsRun), pyLower language ≠ "java" →
      (analyzerJava.analyze_code code language run).errors = [] ∧
      (analyzerJava.analyze_code code language run).warnings =
        [javaNotImplementedWarning language] ∧
      (javaNotImplementedWarning language).symbol = "NotImplemented" ∧
      (analyzerJava.analyze_code code language run).total_issues = 1 ∧
      (analyzerJava.analyze_code code language run).complexity = 1 ∧
      (analyzerJava.analyze_code code language run).maintainability_index = 75 := by
  intro code language run h
  unfold analyzerJava.analyze_code
  rw [if_neg h]
  exact ⟨rfl, rfl, rfl, rfl, rfl, rfl⟩

/-- Witness for C8: the language "Rust". -/
theorem C8_unsupported_language_witness :
    (analyzerJava.analyze_code "fn main() ()" "Rust" CsRun.unavailable).errors = [] ∧
    (analyzerJava.analyze_code "fn main() ()" "Rust" CsRun.unavailable).warnings =
      [javaNotImplementedWarning "Rust"] ∧
    (javaNotImplementedWarning "Rust").symbol = "NotImplemented" ∧
    (analyzerJava.analyze_code "fn main() ()" "Rust" CsRun.unavailable).total_issues = 1 ∧
    (analyzerJava.analyze_code "fn main() ()" "Rust" CsRun.unavailable).complexity = 1 ∧
    (analyzerJava.analyze_code "fn main() ()" "Rust" CsRun.unavailable).maintainability_index
      = 75 :=
  C8_unsupported_language_result "fn main() ()" "Rust" CsRun.unavailable (by decide)

/-- The C-family scenario input of the spec. -/
def c9Input : String := "#include <iostream>\nint main()\x7b if(1)\x7b\x7d return 0; \x7d"

/-- C9: on the scenario input with clang-tidy unavailable, whatever the
(never-consulted) subprocess outcome, the heuristic complexity is exactly
2.0 (base 1 plus the one `if`), the errors and warnings are empty with
`total_issues` 0, and the availability flag in the result is false. -/
theorem C9_cpp_heuristic_scenario :
    ∀ run : TidyRun,
      (CppAnalyzer.analyze false c9Input "C++" run).complexity = 2 ∧
      (CppAnalyzer.analyze false c9Input "C++" run).errors = [] ∧
      (CppAnalyzer.analyze false c9Input "C++" run).warnings = [] ∧
      (CppAnalyzer.analyze false c9Input "C++" run).total_issues = 0 ∧
      (CppAnalyzer.analyze false c9Input "C++" run).clang_tidy_available = false := by
  intro run
  have h2 : estimate_complexity_from_code c9Input = 2 := by decide
  exact ⟨h2, rfl, rfl, rfl, rfl⟩

/-- C10: for every language whose lowercased form is not `python`, both the
Python adapter's `analyze_code` method and the module-level `analyze_code_py`
return no result at all (Python `None`): the non-Python fallback branch is a
string literal, not code. -/
theorem C10_non_python_returns_none :
    ∀ (code language : String) (pl : PylintRun) (rd : RadonRun),
      pyLower language ≠ "python" →
        CodeAnalyzer.analyze_code code language pl rd = none ∧
        analyze_code_py code language pl rd = none := by
  intro code language pl rd h
  unfold analyze_code_py CodeAnalyzer.analyze_code
  rw [if_neg h]
  exact ⟨rfl, rfl⟩

/-- Witness for C10: the language "Java". -/
theorem C10_non_python_witness :
    CodeAnalyzer.analyze_code "int x;" "Java" PylintRun.notFound RadonRun.notFound = none ∧
    analyze_code_py "int x;" "Java" PylintRun.notFound RadonRun.notFound = none :=
  C10_non_python_returns_none "int x;" "Java" PylintRun.notFound RadonRun.notFound (by decide)

/-- C2 failing-input evaluation: the adapter contract promises a fully
populated result for every input and language, but the Python adapter's
entry points return Python `None` for any non-Python language — the
fallback branch that would produce a basic analysis is commented out. -/
theorem C2_python_adapter_returns_none :
    CodeAnalyzer.analyze_code "x = [1, 2]" "Java" PylintRun.notFound RadonRun.notFound
        = none ∧
    analyze_code_py "x = [1, 2]" "Java" PylintRun.notFound RadonRun.notFound = none :=
  ⟨rfl, rfl⟩

/-- Witness for C9: the scenario instantiated at a concrete subprocess
outcome. -/
theorem C9_cpp_heuristic_witness :
    (CppAnalyzer.analyze false c9Input "C++" TidyRun.timeout).complexity = 2 ∧
    (CppAnalyzer.analyze false c9Input "C++" TidyRun.timeout).errors = [] ∧
    (CppAnalyzer.analyze false c9Input "C++" TidyRun.timeout).warnings = [] ∧
    (CppAnalyzer.analyze false c9Input "C++" TidyRun.timeout).total_issues = 0 ∧
    (CppAnalyzer.analyze false c9Input "C++" TidyRun.timeout).clang_tidy_available = false :=
  C9_cpp_heuristic_scenario TidyRun.timeout
